import Mathlib

/-!
# Verification of the rugby-league-scoreboard rotation scheduler

A shallow embedding of the display-rotation / dynamic-duration scheduler of
`src/manager.py` (class `RugbyLeagueScoreboardPlugin`), together with proofs
about its behaviour.

Modelling conventions:
* Wall-clock time and durations are integers (`ℤ`); the Python code uses
  `time.time()` floats but only adds, subtracts and compares them, and every
  constant involved (10 s gap, 15 s default, 45 s fallback, configured whole
  seconds) is integral, so integer time preserves every comparison the
  scheduler makes.
* Python dictionaries are association lists (`List (k × v)`); insertion
  replaces in place or appends, matching dict update semantics.  Python sets
  are duplicate-free lists built with `insertS`.
* A manager object is a record of exactly the attributes the scheduler reads
  (`live_games`, `games_list`, `current_game`, `game_display_duration`, ...).
  An attribute that a given manager class does not define is `none`.
  The render result of `manager.display(force_clear)` is the `displayResult`
  field (`some true`/`some false`/`none` for a `None` return): rendering is
  an external effect the scheduler only branches on.
* Log statements, log-throttling state (`_current_game_tracking`,
  `_last_live_content_false_log`) and thread fan-out are omitted: they are
  write-only with respect to every scheduling decision.
* The composite string manager key `f"{mode}:{ManagerClass}"` is modelled as
  the pair `MKey` of its two components; `split(':', 1)` recovers exactly the
  pair because mode names (`"{league}_{live|recent|upcoming}"`) contain no
  colon.
-/

namespace RugbyScoreboard

/-- The four leagues registered in `_initialize_league_registry`
(`nrl` priority 1, `wnba` 2, `ncaam` 3, `ncaaw` 4). -/
inductive League where
  | nrl | wnba | ncaam | ncaaw
deriving DecidableEq, Repr

/-- The three per-league mode types (`live`, `recent`, `upcoming`). -/
inductive ModeType where
  | live | recent | upcoming
deriving DecidableEq, Repr

/-- League id string used in display-mode names. -/
def League.id : League → String
  | .nrl => "nrl"
  | .wnba => "wnba"
  | .ncaam => "ncaam"
  | .ncaaw => "ncaaw"

/-- Registry priority (`lower = shown first`), from `_initialize_league_registry`. -/
def League.priority : League → Nat
  | .nrl => 1
  | .wnba => 2
  | .ncaam => 3
  | .ncaaw => 4

/-- Mode-type suffix string (`'live' | 'recent' | 'upcoming'`). -/
def ModeType.str : ModeType → String
  | .live => "live"
  | .recent => "recent"
  | .upcoming => "upcoming"

/-- Registry registration order: `nrl`, `wnba`, `ncaam`, `ncaaw`
(which is also ascending priority order, so the stable priority sort in
`_get_enabled_leagues_for_mode` leaves this order unchanged). -/
def registryOrder : List League := [.nrl, .wnba, .ncaam, .ncaaw]

/-- Display mode name `f"{league_id}_{mode_type}"`, e.g. `"nrl_recent"`. -/
def modeName (l : League) (t : ModeType) : String :=
  l.id ++ "_" ++ t.str

/-- One game record, restricted to the fields the scheduler reads.
`reallyOver` is the value of the manager predicate `_is_game_really_over(g)`
(a collaborator-provided predicate, see spec §4.4). -/
structure Game where
  id : Option String := none
  away_abbr : String := ""
  home_abbr : String := ""
  is_final : Bool := false
  reallyOver : Bool := false
deriving DecidableEq, Repr

/-- Which in-src `display()` implementation a manager class's method
resolution reaches: `SportsCore.display` (src/sports.py:205, reached e.g.
by `WNBALiveManager` through `RugbyLeagueLive`, which overrides no
`display`), `SportsUpcoming.display` (src/sports.py:1729, every
`*UpcomingManager`), or `SportsRecent.display` (src/sports.py:2310, every
`*RecentManager`).  The in-src league manager classes
(`NRLRecentManager(BaseNRLManager, SportsRecent)`, … — none of
`BaseNRLManager`, `BaseWNBAManager`, `RugbyLeague` defines `display`)
inherit these bodies unchanged. -/
inductive MgrKind where
  | core
  | upcoming
  | recent
deriving DecidableEq, Repr

/-- A game-state manager as seen by the scheduler: a snapshot of the
read-only attributes listed in spec §4.5, plus the outcome of its
`display()` call.  `none` for a list attribute means the manager class does
not define that attribute (`getattr` default applies). -/
structure Manager where
  className : String := ""
  /-- which in-src `display()` body the class's MRO resolves to. -/
  kind : MgrKind := .core
  /-- the manager's own `self.is_enabled` flag checked by `display()`. -/
  is_enabled : Bool := true
  live_games : Option (List Game) := none
  games_list : Option (List Game) := none
  recent_games : Option (List Game) := none
  upcoming_games : Option (List Game) := none
  current_game : Option Game := none
  current_game_index : Nat := 0
  favorite_teams : List String := []
  game_display_duration : Option ℤ := none
  /-- whether the manager class defines `_is_game_really_over`. -/
  hasReallyOver : Bool := false
  /-- outcome of the content-drawing branch of the manager's `display()`
  (`_draw_scorebug_layout` and surroundings): `some b` for a `True`/`False`
  return, `none` for a `None` return from an externally overridden body. -/
  displayResult : Option Bool := some false
  /-- whether the content-drawing branch invoked `display_manager.clear()`
  while redrawing (it does so on a game switch or under `force_clear`,
  e.g. src/sports.py:2083; this redraw-with-content clear depends on render
  timing, so it is a snapshot attribute here). -/
  drawCleared : Bool := false
deriving DecidableEq, Repr

/-- Composite manager key; models the string `f"{mode_name}:{ManagerClass}"`
built by `_build_manager_key` and re-split by `split(':', 1)`. -/
structure MKey where
  mode : String
  cls : String
deriving DecidableEq, Repr

/-- Source `_build_manager_key(mode_name, manager)`. -/
def buildManagerKey (mode : String) (m : Manager) : MKey :=
  ⟨mode, m.className⟩

/-- Per-league slice of the plugin config consumed by the scheduler
(spec §6 configuration shape).  `Option` fields model keys that may be
absent from the config dict. -/
structure LeagueCfg where
  enabled : Bool := false
  live_priority : Bool := false
  show_live : Option Bool := none
  show_recent : Option Bool := none
  show_upcoming : Option Bool := none
  /-- Source `display_durations.{live,recent,upcoming}` -/
  dd_live : Option ℤ := none
  dd_recent : Option ℤ := none
  dd_upcoming : Option ℤ := none
  live_game_duration : Option ℤ := none
  /-- Source `mode_durations.{live,recent,upcoming}_mode_duration` (valid floats). -/
  md_live : Option ℤ := none
  md_recent : Option ℤ := none
  md_upcoming : Option ℤ := none
  /-- Source `dynamic_duration.enabled` -/
  dyn_enabled : Option Bool := none
  /-- Source `dynamic_duration.modes.{live,recent,upcoming}.enabled` -/
  dyn_mode_live : Option Bool := none
  dyn_mode_recent : Option Bool := none
  dyn_mode_upcoming : Option Bool := none
  /-- Source `display_modes.{live,recent,upcoming}_display_mode` (default `'switch'`). -/
  dispmode_live : String := "switch"
  dispmode_recent : String := "switch"
  dispmode_upcoming : String := "switch"

def LeagueCfg.showMode (c : LeagueCfg) : ModeType → Option Bool
  | .live => c.show_live
  | .recent => c.show_recent
  | .upcoming => c.show_upcoming

def LeagueCfg.displayDuration (c : LeagueCfg) : ModeType → Option ℤ
  | .live => c.dd_live
  | .recent => c.dd_recent
  | .upcoming => c.dd_upcoming

def LeagueCfg.modeDuration (c : LeagueCfg) : ModeType → Option ℤ
  | .live => c.md_live
  | .recent => c.md_recent
  | .upcoming => c.md_upcoming

def LeagueCfg.dynModeEnabled (c : LeagueCfg) : ModeType → Option Bool
  | .live => c.dyn_mode_live
  | .recent => c.dyn_mode_recent
  | .upcoming => c.dyn_mode_upcoming

def LeagueCfg.dispModeSetting (c : LeagueCfg) : ModeType → String
  | .live => c.dispmode_live
  | .recent => c.dispmode_recent
  | .upcoming => c.dispmode_upcoming

/-- The immutable part of the plugin after `__init__`: configuration,
manager instances (present only when the league was enabled at
construction, mirroring the `hasattr` checks), global durations, and the
available-modes list.  Scroll-collaborator outcomes are oracle fields. -/
structure Plugin where
  is_enabled : Bool := true
  cfg : League → LeagueCfg
  mgr : League → ModeType → Option Manager
  /-- Source `config.get("game_display_duration", 15)` -/
  game_display_duration : ℤ := 15
  /-- Source `config.get("display_duration", 30)` -/
  display_duration : ℤ := 30
  /-- Source `self.modes`, computed once by `_get_available_modes()`. -/
  modes : List String := []
  /-- whether `ScrollDisplayManager` was constructed. -/
  scrollAvailable : Bool := false
  /-- outcome of `scroll_manager.prepare_and_display(...)`. -/
  scrollPrepareSucceeds : Bool := false
  /-- outcome of `scroll_manager.display_frame(mode_type)`. -/
  scrollDisplayFrame : Bool := false
  /-- outcome of `scroll_manager.is_complete(mode_type)`. -/
  scrollIsComplete : Bool := false

/-- The scheduler's mutable in-memory state (the fields initialised in
`__init__` lines 163–218 that scheduling reads or writes). -/
structure SchedState where
  currentModeIndex : Nat := 0
  lastModeSwitch : ℤ := 0
  /-- Source `_dynamic_cycle_seen_modes` -/
  seenModes : List String := []
  /-- Source `_dynamic_mode_to_manager_key` -/
  modeToManagerKey : List (String × MKey) := []
  /-- Source `_dynamic_manager_progress` -/
  managerProgress : List (MKey × List String) := []
  /-- Source `_dynamic_managers_completed` -/
  managersCompleted : List MKey := []
  /-- Source `_dynamic_cycle_complete` -/
  cycleComplete : Bool := false
  /-- Source `_single_game_manager_start_times` -/
  singleGameStart : List (MKey × ℤ) := []
  /-- Source `_game_id_start_times` -/
  gameIdStart : List (MKey × List (String × ℤ)) := []
  /-- Source `_display_mode_to_managers` -/
  displayModeToManagers : List (String × List MKey) := []
  /-- Source `_last_display_mode` -/
  lastDisplayMode : Option String := none
  /-- Source `_last_display_mode_time` -/
  lastDisplayModeTime : ℤ := 0
  /-- Source `_sticky_manager_per_mode` -/
  stickyManager : List (String × Manager) := []
  /-- Source `_sticky_manager_start_time` -/
  stickyStart : List (String × ℤ) := []
  /-- Source `_mode_start_time` -/
  modeStartTime : List (String × ℤ) := []
  /-- Source `_current_display_league` -/
  currentDisplayLeague : Option League := none
  /-- Source `_current_display_mode_type` -/
  currentDisplayModeType : Option ModeType := none
  /-- Source `_scroll_prepared` -/
  scrollPrepared : List (String × Bool) := []
  /-- Source `_scroll_active` -/
  scrollActive : List (String × Bool) := []
deriving DecidableEq, Repr

/-! ## Dictionary and set primitives (Python `dict` / `set` semantics) -/

section AssocOps
variable {α β : Type} [DecidableEq α]

/-- Source `d.get(k)` on an association list. -/
def lookupA : List (α × β) → α → Option β
  | [], _ => none
  | (a, b) :: t, k => if a = k then some b else lookupA t k

/-- Source `d[k] = v`: replace in place if present, else append (dict semantics). -/
def insertA : List (α × β) → α → β → List (α × β)
  | [], k, v => [(k, v)]
  | (a, b) :: t, k, v => if a = k then (k, v) :: t else (a, b) :: insertA t k v

/-- Source `del d[k]` / `d.pop(k, None)`. -/
def eraseA : List (α × β) → α → List (α × β)
  | [], _ => []
  | (a, b) :: t, k => if a = k then eraseA t k else (a, b) :: eraseA t k

@[simp] theorem lookupA_nil (k : α) : lookupA ([] : List (α × β)) k = none := rfl

@[simp] theorem lookupA_insertA_self (l : List (α × β)) (k : α) (v : β) :
    lookupA (insertA l k v) k = some v := by
  induction l with
  | nil => simp [insertA, lookupA]
  | cons h t ih =>
    obtain ⟨a, b⟩ := h
    by_cases hak : a = k <;> simp [insertA, lookupA, hak, ih]

@[simp] theorem lookupA_insertA_ne (l : List (α × β)) (k k' : α) (v : β)
    (h : k' ≠ k) : lookupA (insertA l k' v) k = lookupA l k := by
  induction l with
  | nil => simp [insertA, lookupA, h]
  | cons hd t ih =>
    obtain ⟨a, b⟩ := hd
    by_cases hak : a = k'
    · subst hak
      simp [insertA, lookupA, h]
    · by_cases hak' : a = k <;> simp [insertA, lookupA, hak, hak', ih, Ne.symm h]

@[simp] theorem lookupA_eraseA_self (l : List (α × β)) (k : α) :
    lookupA (eraseA l k) k = none := by
  induction l with
  | nil => simp [eraseA]
  | cons hd t ih =>
    obtain ⟨a, b⟩ := hd
    by_cases hak : a = k <;> simp [eraseA, lookupA, hak, ih]

@[simp] theorem lookupA_eraseA_ne (l : List (α × β)) (k k' : α) (h : k' ≠ k) :
    lookupA (eraseA l k') k = lookupA l k := by
  induction l with
  | nil => simp [eraseA]
  | cons hd t ih =>
    obtain ⟨a, b⟩ := hd
    by_cases hak : a = k'
    · subst hak
      simp [eraseA, lookupA, h, ih]
    · by_cases hak' : a = k <;> simp [eraseA, lookupA, hak, hak', ih, Ne.symm h]

end AssocOps

section SetOps
variable {α : Type} [DecidableEq α]

/-- Source `s.add(x)` on a duplicate-free list modelling a Python set. -/
def insertS (l : List α) (a : α) : List α :=
  if a ∈ l then l else l ++ [a]

/-- Source `s.discard(x)`. -/
def eraseS (l : List α) (a : α) : List α := l.filter (· ≠ a)

/-- Source `a.issubset(b)`. -/
def subsetS (a b : List α) : Bool := a.all (· ∈ b)

/-- Source `a.intersection_update(b)` (kept in `a`'s order). -/
def interS (a b : List α) : List α := a.filter (· ∈ b)

@[simp] theorem mem_insertS_self (l : List α) (a : α) : a ∈ insertS l a := by
  by_cases h : a ∈ l <;> simp [insertS, h]

@[simp] theorem mem_insertS (l : List α) (a b : α) :
    b ∈ insertS l a ↔ b ∈ l ∨ b = a := by
  by_cases h : a ∈ l
  · simp only [insertS, if_pos h]
    constructor
    · exact Or.inl
    · rintro (hb | rfl) <;> [exact hb; exact h]
  · simp [insertS, if_neg h]

@[simp] theorem not_mem_eraseS_self (l : List α) (a : α) : a ∉ eraseS l a := by
  simp [eraseS]

@[simp] theorem mem_eraseS (l : List α) (a b : α) :
    b ∈ eraseS l a ↔ b ∈ l ∧ b ≠ a := by
  simp [eraseS]

theorem subsetS_iff (a b : List α) : subsetS a b = true ↔ ∀ x ∈ a, x ∈ b := by
  simp [subsetS]

theorem mem_interS (a b : List α) (x : α) :
    x ∈ interS a b ↔ x ∈ a ∧ x ∈ b := by
  simp [interS]

end SetOps

/-! ## Pure helpers of the plugin -/

/-- Source `str.startswith(pre)`, computed structurally on the character list so
that the kernel can evaluate it. -/
def strStartsWith (s pre : String) : Bool := pre.data.isPrefixOf s.data

/-- Source `str.endswith(suf)`. -/
def strEndsWith (s suf : String) : Bool := suf.data.isSuffixOf s.data

/-- Python falsiness of a string (`not s`). -/
def strIsEmpty (s : String) : Bool := s.data.isEmpty

/-- Source `c in s` for a single character. -/
def strContainsChar (s : String) (c : Char) : Bool := s.data.any (· = c)

/-- Characters after the first occurrence of `sep` (empty when absent). -/
def charsAfterFirst (sep : Char) : List Char → List Char
  | [] => []
  | c :: rest => if c = sep then rest else charsAfterFirst sep rest

/-- Source `_get_total_games_for_manager`: length of the first attribute among
`live_games`, `games_list`, `recent_games`, `upcoming_games` that is a list. -/
def totalGames : Option Manager → Nat
  | none => 0
  | some m =>
    match m.live_games with
    | some v => v.length
    | none =>
      match m.games_list with
      | some v => v.length
      | none =>
        match m.recent_games with
        | some v => v.length
        | none =>
          match m.upcoming_games with
          | some v => v.length
          | none => 0

/-- The `startswith("nrl_") / ("wnba_") / ("ncaam_") / ("ncaaw_")` prefix
dispatch used throughout the file (e.g. `_get_manager_for_mode`,
`_record_dynamic_progress` lines 2739–2750). -/
def leaguePrefixMatch (s : String) : Option League :=
  if strStartsWith s "nrl_" then some .nrl
  else if strStartsWith s "wnba_" then some .wnba
  else if strStartsWith s "ncaam_" then some .ncaam
  else if strStartsWith s "ncaaw_" then some .ncaaw
  else none

/-- Source `s.split("_", 1)[1]`: everything after the first underscore.  Call sites
always guard on a `"{league}_"` prefix, so the underscore exists; the
otherwise-IndexError case is mapped to `""`. -/
def afterFirstUnderscore (s : String) : String :=
  ⟨charsAfterFirst '_' s.data⟩

/-- Source `s.split('_')[-1]`: the last underscore-separated component
(`_evaluate_dynamic_cycle_completion` line 2982/3029). -/
def lastUnderscoreComponent (s : String) : String :=
  ⟨(s.data.reverse.takeWhile (· ≠ '_')).reverse⟩

/-- Dispatch of a mode-type string (`'live' | 'recent' | 'upcoming'`), as in
the suffix matches of `_get_manager_for_mode` / `_get_current_manager`. -/
def parseModeTypeStr (s : String) : Option ModeType :=
  if s = "live" then some .live
  else if s = "recent" then some .recent
  else if s = "upcoming" then some .upcoming
  else none

/-- Source `_extract_mode_type`: suffix dispatch on `_live` / `_recent` / `_upcoming`. -/
def extractModeType (s : String) : Option ModeType :=
  if strEndsWith s "_live" then some .live
  else if strEndsWith s "_recent" then some .recent
  else if strEndsWith s "_upcoming" then some .upcoming
  else none

/-- Config lookup part of `_get_game_duration` (steps 2–4 of its hierarchy):
league `display_durations[mode_type]`, then `live_game_duration` for live,
then the hardcoded 15-second default.  `display_durations` holds only the
three mode keys, so a non-mode string finds nothing. -/
def getGameDurationCfg (p : Plugin) (l : League) (modeType : String) : ℤ :=
  let dd : Option ℤ :=
    match modeType with
    | "live" => (p.cfg l).dd_live
    | "recent" => (p.cfg l).dd_recent
    | "upcoming" => (p.cfg l).dd_upcoming
    | _ => none
  match dd with
  | some d => d
  | none =>
    if modeType = "live" then
      match (p.cfg l).live_game_duration with
      | some d => d
      | none => 15
    else 15

/-- Source `_get_game_duration(league, mode_type, manager)`: manager's
`game_display_duration` attribute first, then the config hierarchy. -/
def getGameDuration (p : Plugin) (l : League) (modeType : String)
    (m : Option Manager) : ℤ :=
  match m with
  | some mg =>
    match mg.game_display_duration with
    | some d => d
    | none => getGameDurationCfg p l modeType
  | none => getGameDurationCfg p l modeType

/-- Source `_get_mode_duration(league, mode_type)`: the per-mode
`{mode_type}_mode_duration` entry when present and float-convertible. -/
def getModeDuration (p : Plugin) (l : League) (t : ModeType) : Option ℤ :=
  (p.cfg l).modeDuration t

/-- Source `supports_dynamic_duration()`: per-league/per-mode `dynamic_duration`
setting, resolved against the current display context; no global fallback. -/
def supportsDynamicDuration (p : Plugin) (st : SchedState) : Bool :=
  if ¬ p.is_enabled then false
  else
    match st.currentDisplayLeague, st.currentDisplayModeType with
    | some l, some t =>
      match (p.cfg l).dynModeEnabled t with
      | some b => b
      | none =>
        match (p.cfg l).dyn_enabled with
        | some b => b
        | none => false
    | _, _ => false

/-- Source `_dynamic_feature_enabled()`. -/
def dynamicFeatureEnabled (p : Plugin) (st : SchedState) : Bool :=
  p.is_enabled && supportsDynamicDuration p st

/-- Source `display_modes.show_{mode}` gate with its `True` default. -/
def modeEnabledForLeague (p : Plugin) (l : League) (t : ModeType) : Bool :=
  ((p.cfg l).showMode t).getD true

/-- Source `_get_enabled_leagues_for_mode(mode_type)`.  The registry priorities
(1–4) coincide with registration order, so the ascending stable sort by
priority returns the filtered registration order unchanged. -/
def enabledLeaguesForMode (p : Plugin) (t : ModeType) : List League :=
  registryOrder.filter fun l => (p.cfg l).enabled && modeEnabledForLeague p l t

/-- Source `_get_available_modes()`: per enabled league (priority order) the enabled
modes in the order recent, upcoming, live; defaulting to the NRL triple when
no league is enabled. -/
def getAvailableModes (p : Plugin) : List String :=
  let ms := (registryOrder.filter fun l => (p.cfg l).enabled).flatMap fun l =>
    ([ModeType.recent, .upcoming, .live].filter fun t =>
      modeEnabledForLeague p l t).map fun t => modeName l t
  if ms.isEmpty then ["nrl_recent", "nrl_upcoming", "nrl_live"] else ms

/-- Source `_get_manager_for_mode(mode_name)`: league-prefix dispatch, enabled-flag
gate, then suffix dispatch to the league's manager attribute. -/
def getManagerForMode (p : Plugin) (s : String) : Option Manager :=
  match leaguePrefixMatch s with
  | none => none
  | some l =>
    if ¬ (p.cfg l).enabled then none
    else
      match parseModeTypeStr (afterFirstUnderscore s) with
      | some t => p.mgr l t
      | none => none

/-- Source `_get_games_from_manager(manager, mode_type)`: `live_games` for live;
`games_list` first, falling back to `recent_games`/`upcoming_games`,
otherwise. -/
def gamesFromManager (m : Manager) (t : ModeType) : List Game :=
  match t with
  | .live => m.live_games.getD []
  | .recent =>
    match m.games_list with
    | some g => g
    | none => m.recent_games.getD []
  | .upcoming =>
    match m.games_list with
    | some g => g
    | none => m.upcoming_games.getD []

/-- The live filter used in `has_live_content`, `_has_live_games_for_manager`
and `get_cycle_duration`: drop `is_final` games, then (when the manager
defines `_is_game_really_over`) drop really-over games. -/
def filterLive (m : Manager) (gs : List Game) : List Game :=
  let gs := gs.filter fun g => ¬ g.is_final
  if m.hasReallyOver then gs.filter fun g => ¬ g.reallyOver else gs

/-- Source `game.get('home_abbr') in favorite_teams or game.get('away_abbr') in
favorite_teams`. -/
def gameInvolvesFavorite (favs : List String) (g : Game) : Bool :=
  favs.any (· = g.home_abbr) || favs.any (· = g.away_abbr)

/-- Source `_has_live_games_for_manager(manager)` (lines 2564–2599); the per-league
blocks of `has_live_content` (lines 1292–1319 etc.) inline this same
filter chain. -/
def hasLiveGamesForManager : Option Manager → Bool
  | none => false
  | some m =>
    let lg := m.live_games.getD []
    if lg.isEmpty then false
    else
      let lg := filterLive m lg
      if lg.isEmpty then false
      else if ¬ m.favorite_teams.isEmpty then
        lg.any (gameInvolvesFavorite m.favorite_teams)
      else true

/-- One league's contribution to `has_live_content()`: enabled, live-priority,
manager constructed, and the inlined live-game filter reports content. -/
def leagueLiveFlag (p : Plugin) (l : League) : Bool :=
  (p.cfg l).enabled && (p.cfg l).live_priority
    && hasLiveGamesForManager (p.mgr l .live)

/-- Source `has_live_content()` (log throttling omitted). -/
def hasLiveContent (p : Plugin) : Bool :=
  if ¬ p.is_enabled then false
  else
    leagueLiveFlag p .nrl || leagueLiveFlag p .wnba
      || leagueLiveFlag p .ncaam || leagueLiveFlag p .ncaaw

/-- The first, live-priority-respecting pass of
`_resolve_managers_for_mode('live')` (lines 2659–2681): a live-priority
league's manager only with live games, a non-live-priority league's
manager unconditionally. -/
def primaryLiveManagers (p : Plugin) : List Manager :=
  (enabledLeaguesForMode p .live).filterMap fun l =>
    match p.mgr l .live with
    | none => none
    | some m =>
      if (p.cfg l).live_priority then
        if hasLiveGamesForManager (some m) then some m else none
      else some m

/-- Source `_resolve_managers_for_mode(mode_type)`: first component is the list of
managers whose `update()` was invoked (the live-mode pre-update loop,
lines 2648–2657), second is the resolved candidate list. -/
def resolveManagersForMode (p : Plugin) (t : ModeType) :
    List Manager × List Manager :=
  let enabled := enabledLeaguesForMode p t
  match t with
  | .live =>
    let trace := enabled.filterMap fun l => p.mgr l .live
    let primary := primaryLiveManagers p
    let result :=
      if primary.isEmpty then enabled.filterMap fun l => p.mgr l .live
      else primary
    (trace, result)
  | _ => ([], enabled.filterMap fun l => p.mgr l t)

/-- Source `_apply_sticky_manager_logic(display_mode, managers_to_try)`:
restrict to the sticky manager when recorded and available; otherwise drop
any stale sticky record and return the list unchanged. -/
def applyStickyManagerLogic (st : SchedState) (displayMode : String)
    (managersToTry : List Manager) : List Manager × SchedState :=
  match lookupA st.stickyManager displayMode with
  | some sm =>
    if sm ∈ managersToTry then ([sm], st)
    else
      (managersToTry,
        { st with
            stickyManager := eraseA st.stickyManager displayMode,
            stickyStart := eraseA st.stickyStart displayMode })
  | none => (managersToTry, st)

/-- Source `_set_display_context_from_manager(manager, mode_type)`: identity-probe
the manager against each league's three manager attributes; the league
context is left unchanged when nothing matches. -/
def managerLeague (p : Plugin) (m : Manager) : Option League :=
  if p.mgr .nrl .live = some m ∨ p.mgr .nrl .recent = some m
      ∨ p.mgr .nrl .upcoming = some m then some .nrl
  else if p.mgr .wnba .live = some m ∨ p.mgr .wnba .recent = some m
      ∨ p.mgr .wnba .upcoming = some m then some .wnba
  else if p.mgr .ncaam .live = some m ∨ p.mgr .ncaam .recent = some m
      ∨ p.mgr .ncaam .upcoming = some m then some .ncaam
  else if p.mgr .ncaaw .live = some m ∨ p.mgr .ncaaw .recent = some m
      ∨ p.mgr .ncaaw .upcoming = some m then some .ncaaw
  else none

def setDisplayContextFromManager (p : Plugin) (st : SchedState) (m : Manager)
    (t : ModeType) : SchedState :=
  let st := { st with currentDisplayModeType := some t }
  match managerLeague p m with
  | some l => { st with currentDisplayLeague := some l }
  | none => st

/-- Source `_get_current_manager()`: resolve the manager for
`self.modes[self.current_mode_index]` (the index is always reduced modulo
the list length by the cycling code, so `get?` never misses in practice). -/
def getCurrentManager (p : Plugin) (st : SchedState) : Option Manager :=
  match p.modes.get? st.currentModeIndex with
  | none => none
  | some mode => getManagerForMode p mode

/-! ## Dwell-time tracking (`_record_dynamic_progress`) and cycle completion -/

/-- The first manager attribute among `live_games`, `games_list`,
`recent_games`, `upcoming_games` that is a list — the game list whose length
`_get_total_games_for_manager` reports. -/
def managerGames : Option Manager → List Game
  | none => []
  | some m =>
    match m.live_games with
    | some v => v
    | none =>
      match m.games_list with
      | some v => v
      | none =>
        match m.recent_games with
        | some v => v
        | none => m.upcoming_games.getD []

/-- Modelled from the spec: `_get_all_game_ids_for_manager` is called by
`_record_dynamic_progress` and `_evaluate_dynamic_cycle_completion` but is
defined only in the external base class, not under `src/`.  Per spec §4.3
it yields "the manager's *current* game-id list", used to prune the
timestamp map and the completed set and for the subset completion check:
the set of ids of the manager's current games. -/
def getAllGameIdsForManager (m : Option Manager) : List String :=
  (managerGames m).filterMap fun g => g.id

/-- Duration resolution at the `_record_dynamic_progress` call sites
(lines 2857/2863 and the `_track_single_game_progress` call): use
`_get_game_duration(league, mode_type, manager)` when both parse results are
truthy, else the manager's `game_display_duration` attribute or 15. -/
def durFromParse (p : Plugin) (lg : Option League) (mt : Option String)
    (m : Manager) : ℤ :=
  match lg, mt with
  | some l, some s =>
    if strIsEmpty s then m.game_display_duration.getD 15
    else getGameDuration p l s (some m)
  | _, _ => m.game_display_duration.getD 15

/-- Modelled from the spec: `_track_single_game_progress` is called at
line 2822 of `_record_dynamic_progress` but is defined only in the external
base class, not under `src/`.  Per spec §4.3 (single-game or empty manager,
≤ 1 total games): "on first successful display, record `start_time`.  On
every subsequent evaluation, compute `elapsed = now - start_time`; once
`elapsed >= per_game_duration`, mark the `ManagerKey` complete and clear
its `start_time`.  An empty manager (0 games) is marked complete
immediately." -/
def trackSingleGameProgress (p : Plugin) (st : SchedState) (key : MKey)
    (m : Manager) (lg : Option League) (mt : Option String) (now : ℤ) :
    SchedState :=
  if totalGames (some m) = 0 then
    { st with managersCompleted := insertS st.managersCompleted key }
  else
    match lookupA st.singleGameStart key with
    | none => { st with singleGameStart := insertA st.singleGameStart key now }
    | some s =>
      if now - s ≥ durFromParse p lg mt m then
        { st with
            managersCompleted := insertS st.managersCompleted key,
            singleGameStart := eraseA st.singleGameStart key }
      else st

/-- Game-id extraction with fallback (lines 2834–2848): the game's `id` when
present and nonempty, else `"{away}@{home}-{index}"`, else `"index-{index}"`. -/
def gameIdOf (g : Game) (idx : Nat) : String :=
  let raw := g.id.getD ""
  if ¬ strIsEmpty raw then raw
  else if ¬ strIsEmpty g.away_abbr && ¬ strIsEmpty g.home_abbr then
    g.away_abbr ++ "@" ++ g.home_abbr ++ "-" ++ toString idx
  else "index-" ++ toString idx

/-- Source `NEW_CYCLE_THRESHOLD = 10.0` (line 2771). -/
def newCycleThreshold : ℤ := 10

/-- The new-cycle reset of `_record_dynamic_progress` (lines 2796–2813):
drop the key's single-game start time, completed-set membership and
per-game-id start times, and empty (in place) its progress set. -/
def newCycleReset (st : SchedState) (key : MKey) : SchedState :=
  let st := { st with singleGameStart := eraseA st.singleGameStart key }
  let st := { st with managersCompleted := eraseS st.managersCompleted key }
  let st := { st with gameIdStart := eraseA st.gameIdStart key }
  match lookupA st.managerProgress key with
  | some _ => { st with managerProgress := insertA st.managerProgress key [] }
  | none => st

/-- The multi-game branch of `_record_dynamic_progress` (lines 2825–2909):
stamp the currently displayed game, credit it once its dwell time elapsed,
prune both ledgers to the current game-id list, and mark the key complete
when the current ids are a subset of the credited ids. -/
def recordMultiGame (p : Plugin) (st : SchedState) (key : MKey) (m : Manager)
    (lg : Option League) (mt : Option String) (now : ℤ) : SchedState :=
  match m.current_game with
  | none => st
  | some g =>
    let gid := gameIdOf g m.current_game_index
    let progress0 := (lookupA st.managerProgress key).getD []
    let times0 := (lookupA st.gameIdStart key).getD []
    let times1 :=
      match lookupA times0 gid with
      | none => insertA times0 gid now
      | some _ => times0
    let start := (lookupA times1 gid).getD now
    let dur := durFromParse p lg mt m
    let progress1 := if now - start ≥ dur then insertS progress0 gid else progress0
    let valid := getAllGameIdsForManager (some m)
    let progress2 :=
      if ¬ valid.isEmpty then interS progress1 valid
      else if totalGames (some m) = 0 then [] else progress1
    let times2 :=
      if ¬ valid.isEmpty then times1.filter fun kv => kv.1 ∈ valid
      else if totalGames (some m) = 0 then [] else times1
    let st :=
      { st with
          managerProgress := insertA st.managerProgress key progress2,
          gameIdStart := insertA st.gameIdStart key times2 }
    let currentIds := getAllGameIdsForManager (some m)
    if ¬ currentIds.isEmpty then
      if subsetS currentIds progress2 then
        { st with managersCompleted := insertS st.managersCompleted key }
      else st
    else if totalGames (some m) = 0 then
      { st with managersCompleted := insertS st.managersCompleted key }
    else st

/-- The bookkeeping prelude of `_record_dynamic_progress` (lines 2727–2818):
seen-modes accounting, the mode-to-manager-key map, external-call
detection with its 10-second new-cycle reset, and display-mode-to-managers
tracking. -/
def rdpPre (st : SchedState) (key : MKey) (currentMode : String)
    (actualMode displayMode : Option String) (now : ℤ) : SchedState :=
  let st := { st with seenModes := insertS st.seenModes currentMode }
  let st :=
    match displayMode with
    | some d =>
      if ¬ strIsEmpty d && d ≠ currentMode then
        { st with seenModes := insertS st.seenModes d }
      else st
    | none => st
  let st :=
    { st with modeToManagerKey := insertA st.modeToManagerKey currentMode key }
  -- external-call detection and new-cycle reset (lines 2757–2813)
  let st :=
    match displayMode, actualMode with
    | some d, some a =>
      if ¬ strIsEmpty d && ¬ strIsEmpty a && d ≠ a then
        let isNew : Bool :=
          if st.lastDisplayMode ≠ some d then
            decide
              ((if st.lastDisplayModeTime > 0 then
                  now - st.lastDisplayModeTime
                else 999) ≥ newCycleThreshold)
          else false
        let st :=
          { st with lastDisplayMode := some d, lastDisplayModeTime := now }
        if isNew then newCycleReset st key else st
      else st
    | _, _ => st
  -- display-mode-to-managers tracking (lines 2816–2818)
  match displayMode with
  | some d =>
    if ¬ strIsEmpty d && d ≠ currentMode then
      { st with
          displayModeToManagers :=
            insertA st.displayModeToManagers d
              (insertS ((lookupA st.displayModeToManagers d).getD []) key) }
    else st
  | none => st

/-- Source `_record_dynamic_progress(current_manager, actual_mode, display_mode)`. -/
def recordDynamicProgress (p : Plugin) (st : SchedState) (m : Manager)
    (actualMode displayMode : Option String) (now : ℤ) : SchedState :=
  if ¬ dynamicFeatureEnabled p st ∨ p.modes.isEmpty then
    { st with cycleComplete := true }
  else
    let currentMode? : Option String :=
      match actualMode with
      | some a => some a
      | none => p.modes.get? st.currentModeIndex
    match currentMode? with
    | none => st
    | some currentMode =>
      let key := buildManagerKey currentMode m
      let st := rdpPre st key currentMode actualMode displayMode now
      let lg := leaguePrefixMatch currentMode
      let mt : Option String :=
        match lg with
        | some _ => some (afterFirstUnderscore currentMode)
        | none => none
      if totalGames (some m) ≤ 1 then trackSingleGameProgress p st key m lg mt now
      else recordMultiGame p st key m lg mt now

/-- Duration resolution inside the completion check (lines 2972–2983 and
3019–3030): league from the mode-name prefix, mode-type string from the
last underscore component. -/
def durForKeyEval (p : Plugin) (modeNameStr : String) (m : Manager) : ℤ :=
  let lg := leaguePrefixMatch modeNameStr
  let mts := lastUnderscoreComponent modeNameStr
  match lg with
  | some l =>
    if strIsEmpty mts then m.game_display_duration.getD 15
    else getGameDuration p l mts (some m)
  | none => m.game_display_duration.getD 15

/-- One iteration of the first loop of the display-mode path of
`_evaluate_dynamic_cycle_completion` (lines 2956–2999): collect incomplete
keys, and late-complete a single-game key whose recorded dwell time has
elapsed (also clearing its start time). -/
def evalKeyStep (p : Plugin) (now : ℤ) (acc : SchedState × List MKey)
    (key : MKey) : SchedState × List MKey :=
  let (st, inc) := acc
  if key ∈ st.managersCompleted then (st, inc)
  else
    let inc := inc ++ [key]
    match getManagerForMode p key.mode with
    | none => (st, inc)
    | some m =>
      if m.className = key.cls then
        if totalGames (some m) ≤ 1 then
          match lookupA st.singleGameStart key with
          | some s =>
            if now - s ≥ durForKeyEval p key.mode m then
              ({ st with
                   managersCompleted := insertS st.managersCompleted key,
                   singleGameStart := eraseA st.singleGameStart key },
                inc.filter (· ≠ key))
            else (st, inc)
          | none => (st, inc)
        else (st, inc)
      else (st, inc)

/-- The second, consistency-guard loop of the display-mode path
(lines 3008–3036): a key that still has a live single-game start time whose
duration has not elapsed blocks completion. -/
def trulyCompleted (p : Plugin) (st : SchedState) (now : ℤ) :
    List MKey → Bool
  | [] => true
  | key :: rest =>
    match lookupA st.singleGameStart key with
    | none => trulyCompleted p st now rest
    | some s =>
      match getManagerForMode p key.mode with
      | none => trulyCompleted p st now rest
      | some m =>
        if m.className = key.cls then
          if now - s < durForKeyEval p key.mode m then false
          else trulyCompleted p st now rest
        else trulyCompleted p st now rest

/-- The standard (internal mode cycling) path of
`_evaluate_dynamic_cycle_completion` (lines 3048–3097). -/
def evalStandardModes (p : Plugin) (now : ℤ) :
    SchedState → List String → SchedState
  | st, [] => { st with cycleComplete := true }
  | st, modeN :: rest =>
    if modeN ∉ st.seenModes then { st with cycleComplete := false }
    else
      match lookupA st.modeToManagerKey modeN with
      | none => { st with cycleComplete := false }
      | some key =>
        if key ∈ st.managersCompleted then evalStandardModes p now st rest
        else
          let m? := getManagerForMode p modeN
          if totalGames m? ≤ 1 then
            match lookupA st.singleGameStart key with
            | some s =>
              let dur : ℤ :=
                match m? with
                | some m => m.game_display_duration.getD 15
                | none => 15
              if now - s ≥ dur then
                evalStandardModes p now
                  { st with managersCompleted := insertS st.managersCompleted key }
                  rest
              else { st with cycleComplete := false }
            | none => { st with cycleComplete := false }
          else
            let progress := (lookupA st.managerProgress key).getD []
            let ids := getAllGameIdsForManager m?
            if ¬ ids.isEmpty && subsetS ids progress then
              evalStandardModes p now
                { st with managersCompleted := insertS st.managersCompleted key }
                rest
            else { st with cycleComplete := false }

/-- Source `_evaluate_dynamic_cycle_completion(display_mode)`. -/
def evaluateDynamicCycleCompletion (p : Plugin) (st : SchedState)
    (displayMode : Option String) (now : ℤ) : SchedState :=
  if ¬ dynamicFeatureEnabled p st then { st with cycleComplete := true }
  else if p.modes.isEmpty then { st with cycleComplete := true }
  else
    let stdPath (st : SchedState) : SchedState :=
      let required := p.modes.filter fun mo => ¬ strIsEmpty mo
      if required.isEmpty then { st with cycleComplete := true }
      else evalStandardModes p now st required
    match displayMode with
    | some d =>
      if ¬ strIsEmpty d then
        match lookupA st.displayModeToManagers d with
        | some used =>
          if used.isEmpty then { st with cycleComplete := false }
          else
            let r := used.foldl (evalKeyStep p now) (st, [])
            let st := r.1
            let inc := r.2
            if ¬ inc.isEmpty then { st with cycleComplete := false }
            else if trulyCompleted p st now used then
              { st with cycleComplete := true }
            else { st with cycleComplete := false }
        | none => stdPath st
      else stdPath st
    | none => stdPath st

/-- Source `reset_cycle_state()`: clear exactly the five dynamic-cycle structures.
The `super().reset_cycle_state()` call goes to the host-defined
`BasePlugin` (an external collaborator, spec §6); it does not touch this
plugin's scheduler fields, so it is the identity here. -/
def resetCycleState (st : SchedState) : SchedState :=
  { st with
      seenModes := [],
      modeToManagerKey := [],
      managerProgress := [],
      managersCompleted := [],
      cycleComplete := false }

/-! ## The display paths -/

/-- Outcome of a plugin-level display call: the boolean result, the updated
scheduler state, and whether the plugin itself invoked
`display_manager.clear()` (the display-clear path). -/
structure DispOut where
  result : Bool
  st : SchedState
  cleared : Bool := false
deriving DecidableEq, Repr

/-- Source `manager.display(force_clear)`, resolved by class
(`SportsCore.display` src/sports.py:205–235, `SportsUpcoming.display`
1729–1793, `SportsRecent.display` 2310–2364).  Returns the call's result
and whether it invoked `display_manager.clear()`:
`SportsRecent.display` clears (then `update_display`s) whenever
`force_clear` or the `games_list` is empty, before returning `False`;
`SportsUpcoming.display` clears on an empty `games_list` only under
`force_clear`; `SportsCore.display` never clears on its no-content path
(its comment: let the caller handle skipping).  On the content-drawing
branch the result is the `displayResult` snapshot and the redraw clear is
the `drawCleared` snapshot. -/
def managerDisplay (m : Manager) (fc : Bool) : Option Bool × Bool :=
  match m.kind with
  | .recent =>
    if ¬ m.is_enabled ∨ (m.games_list.getD []).isEmpty then
      (some false, fc ∨ (m.games_list.getD []).isEmpty)
    else (m.displayResult, m.drawCleared)
  | .upcoming =>
    if ¬ m.is_enabled then (some false, false)
    else if (m.games_list.getD []).isEmpty then (some false, fc)
    else (m.displayResult, m.drawCleared)
  | .core =>
    if ¬ m.is_enabled then (some false, false)
    else if m.current_game.isNone then (some false, false)
    else (m.displayResult, m.drawCleared)

/-- Whether the single `manager.display(force_clear)` call inside
`_try_manager_display` (line 1895) invoked `display_manager.clear()`.
The clear is an effect on the shared display manager, not on scheduler
state, so it sits beside the state transformer `tryManagerDisplay`. -/
def tryManagerClears (m? : Option Manager) (fc : Bool) : Bool :=
  match m? with
  | none => false
  | some m => (managerDisplay m fc).2

/-- Source `_try_manager_display(manager, force_clear, display_mode, mode_type,
sticky_manager)` (lines 1854–2023).  Returns `((success, actual_mode),
state)`; the manager's render outcome is `managerDisplay` on the forwarded
`force_clear`. -/
def tryManagerDisplay (p : Plugin) (st : SchedState) (m? : Option Manager)
    (fc : Bool) (displayMode : String) (t : ModeType) (stickyParam : Option Manager)
    (now : ℤ) : (Bool × Option String) × SchedState :=
  match m? with
  | none => ((false, none), st)
  | some m =>
    let st := setDisplayContextFromManager p st m t
    -- `_ensure_manager_updated` refreshes the manager's own data only.
    let result := (managerDisplay m fc).1
    let actualMode :=
      match st.currentDisplayLeague with
      | some l => modeName l t
      | none => displayMode
    match result with
    | some true =>
      let key := buildManagerKey actualMode m
      let st := recordDynamicProgress p st m (some actualMode) (some displayMode) now
      let st :=
        if (lookupA st.stickyManager displayMode).isNone then
          { st with
              stickyManager := insertA st.stickyManager displayMode m,
              stickyStart := insertA st.stickyStart displayMode now }
        else st
      let st :=
        if ¬ strIsEmpty displayMode then
          { st with
              displayModeToManagers :=
                insertA st.displayModeToManagers displayMode
                  (insertS ((lookupA st.displayModeToManagers displayMode).getD [])
                    key) }
        else st
      let st := evaluateDynamicCycleCompletion p st (some displayMode) now
      ((true, some actualMode), st)
    | some false =>
      if stickyParam = some m then
        let key := buildManagerKey actualMode m
        if key ∈ st.managersCompleted then
          ((false, none),
            { st with
                stickyManager := eraseA st.stickyManager displayMode,
                stickyStart := eraseA st.stickyStart displayMode })
        else ((false, none), st)
      else ((false, none), st)
    | none =>
      let key := buildManagerKey actualMode m
      let st := recordDynamicProgress p st m (some actualMode) (some displayMode) now
      let st :=
        if ¬ strIsEmpty displayMode then
          { st with
              displayModeToManagers :=
                insertA st.displayModeToManagers displayMode
                  (insertS ((lookupA st.displayModeToManagers displayMode).getD [])
                    key) }
        else st
      let st := evaluateDynamicCycleCompletion p st (some displayMode) now
      ((true, some actualMode), st)

/-- Source `_get_effective_mode_duration(display_mode, mode_type)`: the per-mode
configured duration of the current display-context league, if any. -/
def getEffectiveModeDuration (p : Plugin) (st : SchedState) (t : ModeType) :
    Option ℤ :=
  match st.currentDisplayLeague with
  | none => none
  | some l => getModeDuration p l t

/-- The frame-advance half of `_display_scroll_mode` (lines 1636–1656). -/
def scrollFrameStep (p : Plugin) (st : SchedState) (scrollKey : String) :
    DispOut :=
  if (lookupA st.scrollActive scrollKey).getD false then
    if p.scrollDisplayFrame then
      if p.scrollIsComplete then
        ⟨true,
          { st with
              scrollPrepared := insertA st.scrollPrepared scrollKey false,
              scrollActive := insertA st.scrollActive scrollKey false,
              cycleComplete := true },
          false⟩
      else ⟨true, st, false⟩
    else ⟨false, { st with scrollActive := insertA st.scrollActive scrollKey false }, false⟩
  else ⟨false, st, false⟩

/-- Source `_display_scroll_mode(display_mode, league, mode_type, force_clear)`
(lines 1569–1656).  The scroll-helper branches render content strips
(`prepare_and_display` / frame stepping) and take no no-content clear, so
their `cleared` is `false`; the no-scroll-manager fallback forwards to
`_try_manager_display` with `force_clear`. -/
def displayScrollMode (p : Plugin) (st : SchedState) (displayMode : String)
    (l : League) (t : ModeType) (fc : Bool) (now : ℤ) : DispOut :=
  if ¬ p.scrollAvailable then
    let r := tryManagerDisplay p st (p.mgr l t) fc displayMode t none now
    ⟨r.1.1, r.2, tryManagerClears (p.mgr l t) fc⟩
  else
    let scrollKey := displayMode ++ "_" ++ t.str
    if ¬ ((lookupA st.scrollPrepared scrollKey).getD false) then
      match p.mgr l t with
      | none => ⟨false, st, false⟩
      | some m =>
        let games := gamesFromManager m t
        if games.isEmpty then
          ⟨false,
            { st with
                scrollPrepared := insertA st.scrollPrepared scrollKey false,
                scrollActive := insertA st.scrollActive scrollKey false },
            false⟩
        else if ¬ p.scrollPrepareSucceeds then
          ⟨false,
            { st with
                scrollPrepared := insertA st.scrollPrepared scrollKey false,
                scrollActive := insertA st.scrollActive scrollKey false },
            false⟩
        else
          scrollFrameStep p
            { st with
                scrollPrepared := insertA st.scrollPrepared scrollKey true,
                scrollActive := insertA st.scrollActive scrollKey true }
            scrollKey
    else scrollFrameStep p st scrollKey

/-- Source `_display_league_mode(league, mode_type, force_clear)` (lines 1658–1740).
The league is a `League` value, so the registry-membership validation of
lines 1674–1676 always passes.  In the switch branch the one
`manager.display(force_clear)` render happens inside
`_try_manager_display`, so every outcome carries its clear flag. -/
def displayLeagueMode (p : Plugin) (st : SchedState) (l : League)
    (t : ModeType) (fc : Bool) (now : ℤ) : DispOut :=
  if ¬ (p.cfg l).enabled then ⟨false, st, false⟩
  else
    match p.mgr l t with
    | none => ⟨false, st, false⟩
    | some m =>
      let displayMode := modeName l t
      if (p.cfg l).dispModeSetting t = "scroll" then
        displayScrollMode p st displayMode l t fc now
      else
        let st :=
          { st with
              currentDisplayLeague := some l,
              currentDisplayModeType := some t }
        let r := tryManagerDisplay p st (some m) fc displayMode t none now
        let success := r.1.1
        let st := r.2
        let c := tryManagerClears (some m) fc
        if success then
          let (st, startT) :=
            match lookupA st.modeStartTime displayMode with
            | none =>
              ({ st with modeStartTime := insertA st.modeStartTime displayMode now },
                now)
            | some s => (st, s)
          match getEffectiveModeDuration p st t with
          | some md =>
            if now - startT ≥ md then
              ⟨false,
                { st with modeStartTime := insertA st.modeStartTime displayMode now },
                c⟩
            else ⟨true, st, c⟩
          | none => ⟨true, st, c⟩
        else
          ⟨false, { st with modeStartTime := eraseA st.modeStartTime displayMode },
            c⟩

/-- The granular-mode detection of `display()` (lines 1020–1046): an exact
match of `display_mode` against `f"{league_id}{mode_suffix}"` over the
registry.  The endswith-based fallback parse of lines 1033–1046 only
accepts `f"{known_league}_{mode}"` as well, so it never matches anything
the registry loop missed. -/
def parseExactMode (s : String) : Option (League × ModeType) :=
  ((registryOrder.flatMap fun l =>
      [ModeType.live, .recent, .upcoming].map fun t => (l, t)).find?
    fun lt => s = modeName lt.1 lt.2)

/-- The `if/elif` fallback of lines 1100–1108: only the first enabled
league's (existing) live manager. -/
def legacyLiveFallback (p : Plugin) : List League → List Manager
  | [] => []
  | l :: rest =>
    if (p.cfg l).enabled then
      match p.mgr l .live with
      | some m => [m]
      | none => legacyLiveFallback p rest
    else legacyLiveFallback p rest

/-- The legacy combined-mode candidate list (lines 1077–1134): for live,
leagues with live-priority and a nonempty (unfiltered) `live_games`; for
recent/upcoming, every enabled league's manager in priority order. -/
def legacyManagersToTry (p : Plugin) (t : ModeType) : List Manager :=
  match t with
  | .live =>
    let pri := registryOrder.filterMap fun l =>
      match p.mgr l .live with
      | some m =>
        if (p.cfg l).enabled && (p.cfg l).live_priority
            && ¬ (m.live_games.getD []).isEmpty then some m
        else none
      | none => none
    if pri.isEmpty then legacyLiveFallback p registryOrder else pri
  | _ =>
    registryOrder.filterMap fun l =>
      if (p.cfg l).enabled then p.mgr l t else none

/-- The in-loop league identification of the legacy path (lines 1143–1150):
like `_set_display_context_from_manager` but each group is additionally
guarded by `hasattr(self, '{league}_live')`. -/
def legacyContextLeague (p : Plugin) (m : Manager) : Option League :=
  if (p.mgr .nrl .live).isSome
      ∧ (p.mgr .nrl .live = some m ∨ p.mgr .nrl .recent = some m
        ∨ p.mgr .nrl .upcoming = some m) then some .nrl
  else if (p.mgr .wnba .live).isSome
      ∧ (p.mgr .wnba .live = some m ∨ p.mgr .wnba .recent = some m
        ∨ p.mgr .wnba .upcoming = some m) then some .wnba
  else if (p.mgr .ncaam .live).isSome
      ∧ (p.mgr .ncaam .live = some m ∨ p.mgr .ncaam .recent = some m
        ∨ p.mgr .ncaam .upcoming = some m) then some .ncaam
  else if (p.mgr .ncaaw .live).isSome
      ∧ (p.mgr .ncaaw .live = some m ∨ p.mgr .ncaaw .recent = some m
        ∨ p.mgr .ncaaw .upcoming = some m) then some .ncaaw
  else none

/-- The try-each-manager loop of the legacy path of `display()`
(lines 1139–1184): first manager reporting content (or a `None` result)
wins; a `False` result moves on to the next candidate.  Each candidate is
rendered with `current_manager.display(manager_force_clear)` where
`manager_force_clear = force_clear and first_manager` (lines 1156–1161),
so only the head of the list sees `force_clear`; the returned flag is
whether any rendered candidate invoked `display_manager.clear()`. -/
def displayLegacyLoop (p : Plugin) (t : ModeType) (displayMode : String)
    (now : ℤ) : SchedState → Bool → List Manager → (Bool × SchedState) × Bool
  | st, _, [] => ((false, st), false)
  | st, fc, m :: rest =>
    let st :=
      { st with
          currentDisplayLeague :=
            match legacyContextLeague p m with
            | some l => some l
            | none => st.currentDisplayLeague,
          currentDisplayModeType := some t }
    let actualMode :=
      match st.currentDisplayLeague with
      | some l => modeName l t
      | none => displayMode
    let rc := managerDisplay m fc
    match rc.1 with
    | some true =>
      let st := recordDynamicProgress p st m (some actualMode) (some displayMode) now
      let st := evaluateDynamicCycleCompletion p st (some displayMode) now
      ((true, st), rc.2)
    | some false =>
      let r := displayLegacyLoop p t displayMode now st false rest
      (r.1, rc.2 || r.2)
    | none =>
      let st := recordDynamicProgress p st m (some actualMode) (some displayMode) now
      let st := evaluateDynamicCycleCompletion p st (some displayMode) now
      ((true, st), rc.2)

/-- Source `display(display_mode, force_clear)` for a provided `display_mode`
(lines 1006–1200).  The scheduler's own code clears nothing on this path
(the loop's comment at 1136–1138: do not clear, let the first successful
manager clear); any clear comes from the rendered managers' `display()`
bodies and is threaded out of `displayLeagueMode` / `displayLegacyLoop`. -/
def displayWithMode (p : Plugin) (st : SchedState) (displayMode : String)
    (fc : Bool) (now : ℤ) : DispOut :=
  if displayMode ∉ p.modes then ⟨false, st, false⟩
  else
    match parseExactMode displayMode with
    | some (l, t) => displayLeagueMode p st l t fc now
    | none =>
      match extractModeType displayMode with
      | none => ⟨false, st, false⟩
      | some t =>
        let r := displayLegacyLoop p t displayMode now st fc
          (legacyManagersToTry p t)
        ⟨r.1.1, r.1.2, r.2⟩

/-- The internal-cycling fallback of `display()` when no `display_mode` is
given (lines 1202–1272); it never invokes the plugin display-clear path.
The `% len(self.modes)` step is skipped for an empty modes list (where the
source would raise inside the enclosing `try`).  A `None` render result is
returned to the caller unchanged (falsy); it is `false` here.  The one
render is `current_manager.display(force_clear)` (line 1254), whose clear
effect is the `cleared` flag. -/
def displayNoMode (p : Plugin) (st : SchedState) (fc : Bool) (now : ℤ) : DispOut :=
  let live := hasLiveContent p
  let currentMode0 := p.modes.get? st.currentModeIndex
  let onLive :=
    match currentMode0 with
    | some cm => strEndsWith cm "_live"
    | none => false
  let shouldStay := live && onLive
  let st :=
    if live && ¬ onLive then
      match p.modes.findIdx? (strEndsWith · "_live") with
      | some i => { st with currentModeIndex := i, lastModeSwitch := now }
      | none => st
    else st
  let st :=
    if ¬ shouldStay && decide (now - st.lastModeSwitch ≥ p.display_duration)
        && ¬ p.modes.isEmpty then
      { st with
          currentModeIndex := (st.currentModeIndex + 1) % p.modes.length,
          lastModeSwitch := now }
    else st
  match getCurrentManager p st with
  | none => ⟨false, st, false⟩
  | some m =>
    let currentMode? := p.modes.get? st.currentModeIndex
    let st :=
      match currentMode? with
      | some cm =>
        match leaguePrefixMatch cm, parseModeTypeStr (afterFirstUnderscore cm) with
        | some l, some t =>
          { st with currentDisplayLeague := some l, currentDisplayModeType := some t }
        | _, _ => st
      | none => st
    let rc := managerDisplay m fc
    let result := rc.1
    let st :=
      if result ≠ some false then
        recordDynamicProgress p st m currentMode? currentMode? now
      else st
    let st := evaluateDynamicCycleCompletion p st currentMode? now
    ⟨result = some true, st, rc.2⟩

/-- Source `display(display_mode=None|str, force_clear=False)`
(lines 993–1276). -/
def display (p : Plugin) (st : SchedState) (displayMode : Option String)
    (fc : Bool) (now : ℤ) : DispOut :=
  if ¬ p.is_enabled then ⟨false, st, false⟩
  else
    match displayMode with
    | some dm => displayWithMode p st dm fc now
    | none => displayNoMode p st fc now

/-- Source `_display_internal_cycling(force_clear)` (lines 1742–1822): like the
inline fallback of `display()`, but when the manager reports no content it
invokes the display-clear path under `force_clear` (lines 1810–1818). -/
def displayInternalCycling (p : Plugin) (st : SchedState) (forceClear : Bool)
    (now : ℤ) : DispOut :=
  let live := hasLiveContent p
  let currentMode0 := p.modes.get? st.currentModeIndex
  let onLive :=
    match currentMode0 with
    | some cm => strEndsWith cm "_live"
    | none => false
  let shouldStay := live && onLive
  let (st, forceClear) :=
    if live && ¬ onLive then
      match p.modes.findIdx? (strEndsWith · "_live") with
      | some i => ({ st with currentModeIndex := i, lastModeSwitch := now }, true)
      | none => (st, forceClear)
    else (st, forceClear)
  let (st, forceClear) :=
    if ¬ shouldStay && decide (now - st.lastModeSwitch ≥ p.display_duration)
        && ¬ p.modes.isEmpty then
      ({ st with
          currentModeIndex := (st.currentModeIndex + 1) % p.modes.length,
          lastModeSwitch := now }, true)
    else (st, forceClear)
  match getCurrentManager p st with
  | none => ⟨false, st, false⟩
  | some m =>
    let currentMode? := p.modes.get? st.currentModeIndex
    let st :=
      match currentMode? with
      | some cm =>
        match extractModeType cm with
        | some t => setDisplayContextFromManager p st m t
        | none => st
      | none => st
    let rc := managerDisplay m forceClear
    let result := rc.1
    let (st, cleared) :=
      if result ≠ some false then
        let st :=
          match currentMode? with
          | some cm =>
            let key := buildManagerKey cm m
            { st with
                displayModeToManagers :=
                  insertA st.displayModeToManagers cm
                    (insertS ((lookupA st.displayModeToManagers cm).getD []) key) }
          | none => st
        (recordDynamicProgress p st m currentMode? currentMode? now, rc.2)
      else (st, rc.2 || forceClear)
    let st := evaluateDynamicCycleCompletion p st currentMode? now
    ⟨result = some true, st, cleared⟩

/-! ## `get_cycle_duration` -/

def leagueOfId (s : String) : Option League :=
  if s = "nrl" then some .nrl
  else if s = "wnba" then some .wnba
  else if s = "ncaam" then some .ncaam
  else if s = "ncaaw" then some .ncaaw
  else none

def beforeFirstUnderscore (s : String) : String := ⟨s.data.takeWhile (· ≠ '_')⟩

/-- The league resolution of `get_cycle_duration` (lines 2097–2133),
including its quirks: the first parse block is guarded by
`not display_mode.startswith("nrl_")` (its inner `nrl_` branch is dead
source code), so `nrl_*` modes fall through to the second block, which
prefers the *current display context league* over parsing the mode name. -/
def cycleDurationLeague (ctxLeague : Option League) (dm : String)
    (t : ModeType) : Option League :=
  let league1 : Option League :=
    if strContainsChar dm '_' && ¬ strStartsWith dm "nrl_" then
      if strStartsWith dm "ncaam_" then some .ncaam
      else if strStartsWith dm "ncaaw_" then some .ncaaw
      else if strStartsWith dm "nrl_" then some .nrl
      else if strStartsWith dm "wnba_" then some .wnba
      else
        match leagueOfId (beforeFirstUnderscore dm) with
        | some l => if afterFirstUnderscore dm = t.str then some l else none
        | none => none
    else none
  match league1 with
  | some l => some l
  | none =>
    match ctxLeague with
    | some l => some l
    | none =>
      if strStartsWith dm "nrl_" then some .nrl
      else if strStartsWith dm "wnba_" then some .wnba
      else if strStartsWith dm "ncaam_" then some .ncaam
      else if strStartsWith dm "ncaaw_" then some .ncaaw
      else none

/-- Source `get_cycle_duration(display_mode)` (lines 2068–2282).  `ctxLeague` is
`self._current_display_league` at call time.  The pre-count
`_ensure_manager_updated` pass only refreshes the managers' own data. -/
def getCycleDuration (p : Plugin) (ctxLeague : Option League)
    (displayMode : Option String) : Option ℤ :=
  if ¬ p.is_enabled then none
  else
    match displayMode with
    | none => none
    | some dm =>
      if strIsEmpty dm then none
      else
        match extractModeType dm with
        | none => none
        | some t =>
          let league := cycleDurationLeague ctxLeague dm t
          let modeLevel : Option ℤ :=
            match league with
            | some l => getModeDuration p l t
            | none => none
          match modeLevel with
          | some d => some d
          | none =>
            let managersToCheck : List (League × Manager) :=
              match league with
              | some l =>
                match p.mgr l t with
                | some m => [(l, m)]
                | none => []
              | none =>
                registryOrder.filterMap fun l' =>
                  if (p.cfg l').enabled then (p.mgr l' t).map fun m => (l', m)
                  else none
            let (totalG, perGame) :=
              managersToCheck.foldl
                (fun acc lm =>
                  let games := gamesFromManager lm.2 t
                  let dur := getGameDuration p lm.1 t.str (some lm.2)
                  let games :=
                    if ¬ games.isEmpty && t = ModeType.live then filterLive lm.2 games
                    else games
                  (acc.1 + games.length, dur))
                (0, p.game_display_duration)
            if totalG = 0 then some 45
            else some (totalG * perGame)

/-! ## Parsing lemmas for well-formed mode names -/

theorem leaguePrefixMatch_modeName (l : League) (t : ModeType) :
    leaguePrefixMatch (modeName l t) = some l := by
  cases l <;> cases t <;> decide

theorem afterFirstUnderscore_modeName (l : League) (t : ModeType) :
    afterFirstUnderscore (modeName l t) = t.str := by
  cases l <;> cases t <;> decide

theorem lastUnderscoreComponent_modeName (l : League) (t : ModeType) :
    lastUnderscoreComponent (modeName l t) = t.str := by
  cases l <;> cases t <;> decide

theorem extractModeType_modeName (l : League) (t : ModeType) :
    extractModeType (modeName l t) = some t := by
  cases l <;> cases t <;> decide

theorem parseModeTypeStr_str (t : ModeType) :
    parseModeTypeStr t.str = some t := by
  cases t <;> decide

theorem modeName_not_isEmpty (l : League) (t : ModeType) :
    strIsEmpty (modeName l t) = false := by
  cases l <;> cases t <;> decide

theorem str_not_isEmpty (t : ModeType) : strIsEmpty t.str = false := by
  cases t <;> decide

theorem parseExactMode_modeName (l : League) (t : ModeType) :
    parseExactMode (modeName l t) = some (l, t) := by
  cases l <;> cases t <;> decide

theorem getManagerForMode_modeName (p : Plugin) (l : League) (t : ModeType) :
    getManagerForMode p (modeName l t) =
      if (p.cfg l).enabled then p.mgr l t else none := by
  unfold getManagerForMode
  rw [leaguePrefixMatch_modeName, afterFirstUnderscore_modeName,
    parseModeTypeStr_str]
  by_cases h : (p.cfg l).enabled <;> simp [h]

theorem durForKeyEval_modeName (p : Plugin) (l : League) (t : ModeType)
    (m : Manager) :
    durForKeyEval p (modeName l t) m = getGameDuration p l t.str (some m) := by
  unfold durForKeyEval
  rw [leaguePrefixMatch_modeName, lastUnderscoreComponent_modeName]
  simp [str_not_isEmpty]

theorem durFromParse_modeName (p : Plugin) (l : League) (t : ModeType)
    (m : Manager) :
    durFromParse p (some l) (some t.str) m = getGameDuration p l t.str (some m) := by
  unfold durFromParse
  simp [str_not_isEmpty]

/-! ## Frame lemmas: progress recording and completion evaluation never
touch the sticky-manager maps -/

/-- The two sticky-manager maps, bundled for the frame lemmas below. -/
def stickyPair (st : SchedState) : List (String × Manager) × List (String × ℤ) :=
  (st.stickyManager, st.stickyStart)

theorem trackSingleGameProgress_sticky (p : Plugin) (st : SchedState)
    (key : MKey) (m : Manager) (lg : Option League) (mt : Option String)
    (now : ℤ) :
    stickyPair (trackSingleGameProgress p st key m lg mt now) = stickyPair st := by
  unfold trackSingleGameProgress
  repeat' first | rfl | split | simp [stickyPair]

theorem recordMultiGame_sticky (p : Plugin) (st : SchedState) (key : MKey)
    (m : Manager) (lg : Option League) (mt : Option String) (now : ℤ) :
    stickyPair (recordMultiGame p st key m lg mt now) = stickyPair st := by
  unfold recordMultiGame
  repeat' first | rfl | split | simp [stickyPair]

theorem newCycleReset_sticky (st : SchedState) (key : MKey) :
    stickyPair (newCycleReset st key) = stickyPair st := by
  unfold newCycleReset
  repeat' first | rfl | split | simp [stickyPair]

theorem trackSingleGameProgress_stickyM (p : Plugin) (st : SchedState)
    (key : MKey) (m : Manager) (lg : Option League) (mt : Option String)
    (now : ℤ) :
    (trackSingleGameProgress p st key m lg mt now).stickyManager =
      st.stickyManager :=
  congrArg Prod.fst (trackSingleGameProgress_sticky p st key m lg mt now)

theorem trackSingleGameProgress_stickyS (p : Plugin) (st : SchedState)
    (key : MKey) (m : Manager) (lg : Option League) (mt : Option String)
    (now : ℤ) :
    (trackSingleGameProgress p st key m lg mt now).stickyStart = st.stickyStart :=
  congrArg Prod.snd (trackSingleGameProgress_sticky p st key m lg mt now)

theorem recordMultiGame_stickyM (p : Plugin) (st : SchedState) (key : MKey)
    (m : Manager) (lg : Option League) (mt : Option String) (now : ℤ) :
    (recordMultiGame p st key m lg mt now).stickyManager = st.stickyManager :=
  congrArg Prod.fst (recordMultiGame_sticky p st key m lg mt now)

theorem recordMultiGame_stickyS (p : Plugin) (st : SchedState) (key : MKey)
    (m : Manager) (lg : Option League) (mt : Option String) (now : ℤ) :
    (recordMultiGame p st key m lg mt now).stickyStart = st.stickyStart :=
  congrArg Prod.snd (recordMultiGame_sticky p st key m lg mt now)

theorem newCycleReset_stickyM (st : SchedState) (key : MKey) :
    (newCycleReset st key).stickyManager = st.stickyManager :=
  congrArg Prod.fst (newCycleReset_sticky st key)

theorem newCycleReset_stickyS (st : SchedState) (key : MKey) :
    (newCycleReset st key).stickyStart = st.stickyStart :=
  congrArg Prod.snd (newCycleReset_sticky st key)

theorem rdpPre_sticky (st : SchedState) (key : MKey) (cm : String)
    (am dm : Option String) (now : ℤ) :
    stickyPair (rdpPre st key cm am dm now) = stickyPair st := by
  unfold rdpPre
  repeat'
    first
    | rfl
    | split
    | simp [stickyPair, newCycleReset_stickyM, newCycleReset_stickyS]

theorem rdpPre_stickyM (st : SchedState) (key : MKey) (cm : String)
    (am dm : Option String) (now : ℤ) :
    (rdpPre st key cm am dm now).stickyManager = st.stickyManager :=
  congrArg Prod.fst (rdpPre_sticky st key cm am dm now)

theorem rdpPre_stickyS (st : SchedState) (key : MKey) (cm : String)
    (am dm : Option String) (now : ℤ) :
    (rdpPre st key cm am dm now).stickyStart = st.stickyStart :=
  congrArg Prod.snd (rdpPre_sticky st key cm am dm now)

theorem recordDynamicProgress_sticky (p : Plugin) (st : SchedState)
    (m : Manager) (am dm : Option String) (now : ℤ) :
    stickyPair (recordDynamicProgress p st m am dm now) = stickyPair st := by
  unfold recordDynamicProgress
  repeat'
    first
    | rfl
    | split
    | simp [stickyPair, trackSingleGameProgress_stickyM,
        trackSingleGameProgress_stickyS, recordMultiGame_stickyM,
        recordMultiGame_stickyS, rdpPre_stickyM, rdpPre_stickyS]

theorem evalKeyStep_sticky (p : Plugin) (now : ℤ) (acc : SchedState × List MKey)
    (key : MKey) :
    stickyPair (evalKeyStep p now acc key).1 = stickyPair acc.1 := by
  unfold evalKeyStep
  repeat' first | rfl | split | simp [stickyPair]

theorem foldl_evalKeyStep_sticky (p : Plugin) (now : ℤ) (keys : List MKey) :
    ∀ acc : SchedState × List MKey,
      stickyPair (keys.foldl (evalKeyStep p now) acc).1 = stickyPair acc.1 := by
  induction keys with
  | nil => intro acc; rfl
  | cons k rest ih =>
    intro acc
    rw [List.foldl_cons, ih, evalKeyStep_sticky]

theorem evalStandardModes_sticky (p : Plugin) (now : ℤ) (modes : List String) :
    ∀ st : SchedState,
      stickyPair (evalStandardModes p now st modes) = stickyPair st := by
  induction modes with
  | nil => intro st; rfl
  | cons mo rest ih =>
    intro st
    have ihM : ∀ st : SchedState,
        (evalStandardModes p now st rest).stickyManager = st.stickyManager :=
      fun st => congrArg Prod.fst (ih st)
    have ihS : ∀ st : SchedState,
        (evalStandardModes p now st rest).stickyStart = st.stickyStart :=
      fun st => congrArg Prod.snd (ih st)
    unfold evalStandardModes
    repeat' first | rfl | split | simp [stickyPair, ihM, ihS]

theorem foldl_evalKeyStep_stickyM (p : Plugin) (now : ℤ) (keys : List MKey)
    (acc : SchedState × List MKey) :
    ((keys.foldl (evalKeyStep p now) acc).1).stickyManager =
      (acc.1).stickyManager :=
  congrArg Prod.fst (foldl_evalKeyStep_sticky p now keys acc)

theorem foldl_evalKeyStep_stickyS (p : Plugin) (now : ℤ) (keys : List MKey)
    (acc : SchedState × List MKey) :
    ((keys.foldl (evalKeyStep p now) acc).1).stickyStart = (acc.1).stickyStart :=
  congrArg Prod.snd (foldl_evalKeyStep_sticky p now keys acc)

theorem evalStandardModes_stickyM (p : Plugin) (now : ℤ) (modes : List String)
    (st : SchedState) :
    (evalStandardModes p now st modes).stickyManager = st.stickyManager :=
  congrArg Prod.fst (evalStandardModes_sticky p now modes st)

theorem evalStandardModes_stickyS (p : Plugin) (now : ℤ) (modes : List String)
    (st : SchedState) :
    (evalStandardModes p now st modes).stickyStart = st.stickyStart :=
  congrArg Prod.snd (evalStandardModes_sticky p now modes st)

theorem evaluateDynamicCycleCompletion_sticky (p : Plugin) (st : SchedState)
    (dm : Option String) (now : ℤ) :
    stickyPair (evaluateDynamicCycleCompletion p st dm now) = stickyPair st := by
  unfold evaluateDynamicCycleCompletion
  repeat'
    first
    | rfl
    | split
    | simp [stickyPair, foldl_evalKeyStep_stickyM, foldl_evalKeyStep_stickyS,
        evalStandardModes_stickyM, evalStandardModes_stickyS]

theorem recordDynamicProgress_stickyManager (p : Plugin) (st : SchedState)
    (m : Manager) (am dm : Option String) (now : ℤ) :
    (recordDynamicProgress p st m am dm now).stickyManager = st.stickyManager :=
  congrArg Prod.fst (recordDynamicProgress_sticky p st m am dm now)

theorem recordDynamicProgress_stickyStart (p : Plugin) (st : SchedState)
    (m : Manager) (am dm : Option String) (now : ℤ) :
    (recordDynamicProgress p st m am dm now).stickyStart = st.stickyStart :=
  congrArg Prod.snd (recordDynamicProgress_sticky p st m am dm now)

theorem evaluateDynamicCycleCompletion_stickyManager (p : Plugin)
    (st : SchedState) (dm : Option String) (now : ℤ) :
    (evaluateDynamicCycleCompletion p st dm now).stickyManager =
      st.stickyManager :=
  congrArg Prod.fst (evaluateDynamicCycleCompletion_sticky p st dm now)

theorem evaluateDynamicCycleCompletion_stickyStart (p : Plugin)
    (st : SchedState) (dm : Option String) (now : ℤ) :
    (evaluateDynamicCycleCompletion p st dm now).stickyStart = st.stickyStart :=
  congrArg Prod.snd (evaluateDynamicCycleCompletion_sticky p st dm now)

/-! ## Small helper facts -/

theorem setDisplayContextFromManager_stickyM (p : Plugin) (st : SchedState)
    (m : Manager) (t : ModeType) :
    (setDisplayContextFromManager p st m t).stickyManager = st.stickyManager := by
  unfold setDisplayContextFromManager
  split <;> rfl

theorem setDisplayContextFromManager_completed (p : Plugin) (st : SchedState)
    (m : Manager) (t : ModeType) :
    (setDisplayContextFromManager p st m t).managersCompleted =
      st.managersCompleted := by
  unfold setDisplayContextFromManager
  split <;> rfl

theorem isEmpty_false_of_mem {α : Type} {l : List α} {a : α} (h : a ∈ l) :
    l.isEmpty = false := by
  cases l with
  | nil => cases h
  | cons x xs => rfl

theorem mem_filterLive {m : Manager} {gs : List Game} {g : Game}
    (hg : g ∈ gs) (hfin : g.is_final = false) (hover : g.reallyOver = false) :
    g ∈ filterLive m gs := by
  unfold filterLive
  by_cases h : m.hasReallyOver <;> simp [h, List.mem_filter, hg, hfin, hover]

theorem hasLiveGamesForManager_pos (m : Manager) (g : Game)
    (hg : g ∈ m.live_games.getD []) (hfin : g.is_final = false)
    (hover : g.reallyOver = false) (hfav : m.favorite_teams = []) :
    hasLiveGamesForManager (some m) = true := by
  unfold hasLiveGamesForManager
  have h1 : (m.live_games.getD []).isEmpty = false := isEmpty_false_of_mem hg
  have h3 : (filterLive m (m.live_games.getD [])).isEmpty = false :=
    isEmpty_false_of_mem (mem_filterLive hg hfin hover)
  simp [h1, h3, hfav]

/-! ## Claim theorems -/

/-- Claim C10. `reset_cycle_state()` clears only the dynamic-cycle structures
(seen-modes set, mode-to-manager-key map, per-manager progress sets,
completed-managers set, cycle-complete flag); every other scheduler field —
per-game-id dwell timestamps, single-game start times, the
display-mode-to-managers map, per-mode start times, both sticky maps, and
the remaining rotation/context state — is left unchanged. -/
theorem C10_reset_cycle_state_frame (st : SchedState) :
    (resetCycleState st).seenModes = []
      ∧ (resetCycleState st).modeToManagerKey = []
      ∧ (resetCycleState st).managerProgress = []
      ∧ (resetCycleState st).managersCompleted = []
      ∧ (resetCycleState st).cycleComplete = false
      ∧ (resetCycleState st).gameIdStart = st.gameIdStart
      ∧ (resetCycleState st).singleGameStart = st.singleGameStart
      ∧ (resetCycleState st).displayModeToManagers = st.displayModeToManagers
      ∧ (resetCycleState st).modeStartTime = st.modeStartTime
      ∧ (resetCycleState st).stickyManager = st.stickyManager
      ∧ (resetCycleState st).stickyStart = st.stickyStart
      ∧ (resetCycleState st).currentModeIndex = st.currentModeIndex
      ∧ (resetCycleState st).lastModeSwitch = st.lastModeSwitch
      ∧ (resetCycleState st).lastDisplayMode = st.lastDisplayMode
      ∧ (resetCycleState st).lastDisplayModeTime = st.lastDisplayModeTime
      ∧ (resetCycleState st).currentDisplayLeague = st.currentDisplayLeague
      ∧ (resetCycleState st).currentDisplayModeType = st.currentDisplayModeType
      ∧ (resetCycleState st).scrollPrepared = st.scrollPrepared
      ∧ (resetCycleState st).scrollActive = st.scrollActive := by
  repeat' constructor

/-- Claim C8. If the plugin is enabled, some league is enabled with
`live_priority`, and that league's live manager holds a live game that is
neither final nor really over, with no favorite-team restriction, then
`has_live_content()` returns `True`. -/
theorem C8_live_preemption (p : Plugin) (l : League) (m : Manager) (g : Game)
    (hp : p.is_enabled = true)
    (hl : (p.cfg l).enabled = true)
    (hpri : (p.cfg l).live_priority = true)
    (hm : p.mgr l .live = some m)
    (hg : g ∈ m.live_games.getD [])
    (hfin : g.is_final = false)
    (hover : g.reallyOver = false)
    (hfav : m.favorite_teams = []) :
    hasLiveContent p = true := by
  have hflag : leagueLiveFlag p l = true := by
    unfold leagueLiveFlag
    rw [hm]
    simp [hl, hpri, hasLiveGamesForManager_pos m g hg hfin hover hfav]
  unfold hasLiveContent
  cases l <;> simp_all

/-- Claim C6. Sticky exclusivity: (1) while the sticky manager recorded for a
display mode is among the candidates, selection returns exactly the
singleton containing it and changes nothing; (2) when it is absent, the
stale record is cleared and the candidates are returned unchanged; (3) with
no record, selection is the identity; (4) a successful display keeps an
existing sticky record in place (so exclusivity persists across renders);
(5) when the sticky manager reports no content, its record is released
exactly if its `ManagerKey` is in the completed set, and kept otherwise. -/
theorem C6_sticky_exclusivity :
    (∀ (st : SchedState) (d : String) (ms : List Manager) (sm : Manager),
      lookupA st.stickyManager d = some sm → sm ∈ ms →
      applyStickyManagerLogic st d ms = ([sm], st))
    ∧
    (∀ (st : SchedState) (d : String) (ms : List Manager) (sm : Manager),
      lookupA st.stickyManager d = some sm → sm ∉ ms →
      (applyStickyManagerLogic st d ms).1 = ms
        ∧ lookupA (applyStickyManagerLogic st d ms).2.stickyManager d = none
        ∧ lookupA (applyStickyManagerLogic st d ms).2.stickyStart d = none)
    ∧
    (∀ (st : SchedState) (d : String) (ms : List Manager),
      lookupA st.stickyManager d = none →
      applyStickyManagerLogic st d ms = (ms, st))
    ∧
    (∀ (p : Plugin) (st : SchedState) (m : Manager) (d : String) (t : ModeType)
        (sm : Manager) (fc : Bool) (now : ℤ),
      (managerDisplay m fc).1 = some true →
      lookupA st.stickyManager d = some sm →
      lookupA (tryManagerDisplay p st (some m) fc d t none now).2.stickyManager d =
        some sm)
    ∧
    (∀ (p : Plugin) (st : SchedState) (m : Manager) (d : String) (t : ModeType)
        (fc : Bool) (now : ℤ),
      (managerDisplay m fc).1 = some false →
      (buildManagerKey
          (match (setDisplayContextFromManager p st m t).currentDisplayLeague with
            | some l => modeName l t
            | none => d) m ∈ st.managersCompleted →
        lookupA (tryManagerDisplay p st (some m) fc d t (some m) now).2.stickyManager
            d = none)
      ∧
      (buildManagerKey
          (match (setDisplayContextFromManager p st m t).currentDisplayLeague with
            | some l => modeName l t
            | none => d) m ∉ st.managersCompleted →
        (tryManagerDisplay p st (some m) fc d t (some m) now).2 =
          setDisplayContextFromManager p st m t)) := by
  refine ⟨?_, ?_, ?_, ?_, ?_⟩
  · intro st d ms sm hlook hmem
    unfold applyStickyManagerLogic
    rw [hlook]
    simp [hmem]
  · intro st d ms sm hlook hmem
    unfold applyStickyManagerLogic
    rw [hlook]
    simp [hmem]
  · intro st d ms hlook
    unfold applyStickyManagerLogic
    rw [hlook]
  · intro p st m d t sm fc now hres hlook
    have h1 : ∀ am : Option String,
        lookupA (recordDynamicProgress p (setDisplayContextFromManager p st m t)
          m am (some d) now).stickyManager d = some sm := by
      intro am
      rw [recordDynamicProgress_stickyManager, setDisplayContextFromManager_stickyM,
        hlook]
    unfold tryManagerDisplay
    simp only [hres]
    simp only [evaluateDynamicCycleCompletion_stickyManager]
    repeat' split
    all_goals simp_all
  · intro p st m d t fc now hres
    constructor
    · intro hkey
      unfold tryManagerDisplay
      simp only [hres]
      simp only [setDisplayContextFromManager_completed]
      simp [hkey]
    · intro hkey
      unfold tryManagerDisplay
      simp only [hres]
      simp only [setDisplayContextFromManager_completed]
      simp [hkey]


def gW8 : Game := { id := some "401", away_abbr := "SYD", home_abbr := "BRI" }

def mW8 : Manager := { className := "NRLLiveManager", live_games := some [gW8] }

def pW8 : Plugin :=
  { cfg := fun l =>
      match l with
      | .nrl => { enabled := true, live_priority := true }
      | _ => {},
    mgr := fun l t =>
      match l, t with
      | .nrl, .live => some mW8
      | _, _ => none,
    modes := ["nrl_live"] }

/-- Witness for C8 at a concrete single-league plugin. -/
theorem C8_live_preemption_witness : hasLiveContent pW8 = true :=
  C8_live_preemption pW8 .nrl mW8 gW8 rfl rfl rfl rfl (by decide) rfl rfl rfl

def gW6 : Game := { id := some "207", away_abbr := "MEL", home_abbr := "PEN" }

def mW6 : Manager :=
  { className := "NRLRecentManager", kind := .recent, games_list := some [gW6],
    displayResult := some true }

def mW6f : Manager :=
  { className := "WNBARecentManager", kind := .recent,
    displayResult := some false }

def pW6 : Plugin := { cfg := fun _ => {}, mgr := fun _ _ => none, modes := [] }

def stW6 : SchedState := { stickyManager := [("nrl_recent", mW6)] }

def stW6b : SchedState :=
  { stickyManager := [("nrl_recent", mW6f)],
    managersCompleted := [⟨"nrl_recent", "WNBARecentManager"⟩] }

/-- Witness for C6: each clause at a concrete state. -/
theorem C6_sticky_exclusivity_witness :
    applyStickyManagerLogic stW6 "nrl_recent" [mW6] = ([mW6], stW6)
      ∧ (applyStickyManagerLogic stW6 "nrl_recent" []).1 = []
      ∧ lookupA (applyStickyManagerLogic stW6 "nrl_recent"
          []).2.stickyManager "nrl_recent" = none
      ∧ applyStickyManagerLogic {} "nrl_recent" [mW6] = ([mW6], {})
      ∧ lookupA (tryManagerDisplay pW6 stW6 (some mW6) false "nrl_recent" .recent
          none 0).2.stickyManager "nrl_recent" = some mW6
      ∧ lookupA (tryManagerDisplay pW6 stW6b (some mW6f) false "nrl_recent" .recent
          (some mW6f) 0).2.stickyManager "nrl_recent" = none :=
  ⟨C6_sticky_exclusivity.1 stW6 "nrl_recent" [mW6] mW6 (by decide) (by decide),
    (C6_sticky_exclusivity.2.1 stW6 "nrl_recent" [] mW6 (by decide) (by decide)).1,
    (C6_sticky_exclusivity.2.1 stW6 "nrl_recent" [] mW6 (by decide) (by decide)).2.1,
    C6_sticky_exclusivity.2.2.1 {} "nrl_recent" [mW6] (by decide),
    C6_sticky_exclusivity.2.2.2.1 pW6 stW6 mW6 "nrl_recent" .recent mW6 false 0
      (by decide) (by decide),
    (C6_sticky_exclusivity.2.2.2.2 pW6 stW6b mW6f "nrl_recent" .recent false 0
      (by decide)).1 (by decide)⟩



theorem rdpPre_singleGameStart (st : SchedState) (key : MKey) (cm : String)
    (am dm : Option String) (now : ℤ) :
    (rdpPre st key cm am dm now).singleGameStart = st.singleGameStart
      ∨ (rdpPre st key cm am dm now).singleGameStart =
          eraseA st.singleGameStart key := by
  unfold rdpPre newCycleReset
  repeat' first | rfl | split | simp

theorem rdpPre_completed (st : SchedState) (key : MKey) (cm : String)
    (am dm : Option String) (now : ℤ) :
    (rdpPre st key cm am dm now).managersCompleted = st.managersCompleted
      ∨ (rdpPre st key cm am dm now).managersCompleted =
          eraseS st.managersCompleted key := by
  unfold rdpPre newCycleReset
  repeat' first | rfl | split | simp

theorem rdpPre_gameIdStart (st : SchedState) (key : MKey) (cm : String)
    (am dm : Option String) (now : ℤ) :
    (rdpPre st key cm am dm now).gameIdStart = st.gameIdStart
      ∨ (rdpPre st key cm am dm now).gameIdStart = eraseA st.gameIdStart key := by
  unfold rdpPre newCycleReset
  repeat' first | rfl | split | simp

theorem rdpPre_progress (st : SchedState) (key : MKey) (cm : String)
    (am dm : Option String) (now : ℤ) :
    (rdpPre st key cm am dm now).managerProgress = st.managerProgress
      ∨ (rdpPre st key cm am dm now).managerProgress =
          insertA st.managerProgress key [] := by
  unfold rdpPre newCycleReset
  repeat' first | rfl | split | simp



theorem eval_display_single (p : Plugin) (st : SchedState) (d : String)
    (key : MKey) (now : ℤ)
    (hdyn : dynamicFeatureEnabled p st = true)
    (hmodes : p.modes.isEmpty = false)
    (hd : strIsEmpty d = false)
    (hused : lookupA st.displayModeToManagers d = some [key]) :
    evaluateDynamicCycleCompletion p st (some d) now =
      (if ¬ (evalKeyStep p now (st, []) key).2.isEmpty then
        { (evalKeyStep p now (st, []) key).1 with cycleComplete := false }
      else if trulyCompleted p (evalKeyStep p now (st, []) key).1 now [key] then
        { (evalKeyStep p now (st, []) key).1 with cycleComplete := true }
      else { (evalKeyStep p now (st, []) key).1 with cycleComplete := false }) := by
  unfold evaluateDynamicCycleCompletion
  simp [hdyn, hmodes, hd, hused]



/-- In the completion loop, an uncompleted single-game key whose dwell time
has not elapsed stays incomplete. -/
theorem evalKeyStep_single_waiting (p : Plugin) (st : SchedState) (m : Manager)
    (l : League) (t : ModeType) (now s : ℤ)
    (henabled : (p.cfg l).enabled = true) (hmgr : p.mgr l t = some m)
    (htot : totalGames (some m) ≤ 1)
    (hkeyn : buildManagerKey (modeName l t) m ∉ st.managersCompleted)
    (hstart : lookupA st.singleGameStart (buildManagerKey (modeName l t) m) =
      some s)
    (hb : ¬ (now - s ≥ getGameDuration p l t.str (some m))) :
    evalKeyStep p now (st, []) (buildManagerKey (modeName l t) m) =
      (st, [buildManagerKey (modeName l t) m]) := by
  have hgm : getManagerForMode p (modeName l t) = some m := by
    rw [getManagerForMode_modeName, henabled]
    simp [hmgr]
  unfold evalKeyStep
  simp only [buildManagerKey] at hkeyn hstart ⊢
  simp [hkeyn, hgm, hstart, htot, durForKeyEval_modeName, hb]

/-- In the completion loop, an uncompleted single-game key whose dwell time
has elapsed is completed and its start time cleared. -/
theorem evalKeyStep_single_done (p : Plugin) (st : SchedState) (m : Manager)
    (l : League) (t : ModeType) (now s : ℤ)
    (henabled : (p.cfg l).enabled = true) (hmgr : p.mgr l t = some m)
    (htot : totalGames (some m) ≤ 1)
    (hkeyn : buildManagerKey (modeName l t) m ∉ st.managersCompleted)
    (hstart : lookupA st.singleGameStart (buildManagerKey (modeName l t) m) =
      some s)
    (hb : now - s ≥ getGameDuration p l t.str (some m)) :
    evalKeyStep p now (st, []) (buildManagerKey (modeName l t) m) =
      ({ st with
          managersCompleted :=
            insertS st.managersCompleted (buildManagerKey (modeName l t) m),
          singleGameStart :=
            eraseA st.singleGameStart (buildManagerKey (modeName l t) m) },
        []) := by
  have hgm : getManagerForMode p (modeName l t) = some m := by
    rw [getManagerForMode_modeName, henabled]
    simp [hmgr]
  unfold evalKeyStep
  simp only [buildManagerKey] at hkeyn hstart ⊢
  simp [hkeyn, hgm, hstart, htot, durForKeyEval_modeName, hb]



/-- Claim C1. Single-game dwell timing: for a `ManagerKey` whose manager holds
at most one game, (a) the first successful display records `start_time =
now` (via the spec-modelled `_track_single_game_progress`); and for a key
recorded as the sole manager used for a display mode, (b) every completion
evaluation with `now < start_time + per_game_duration` leaves the key
incomplete, the cycle incomplete, and the start time in place, while
(c) every evaluation with `now >= start_time + per_game_duration` (boundary
inclusive) marks the key complete, marks the cycle complete, and clears the
start time. -/
theorem C1_single_game_dwell (p : Plugin) (st : SchedState) (m : Manager)
    (l : League) (t : ModeType) (d : String) (now s : ℤ)
    (hdyn : dynamicFeatureEnabled p st = true)
    (hmodes : p.modes.isEmpty = false) :
    (totalGames (some m) = 1 →
      lookupA st.singleGameStart (buildManagerKey (modeName l t) m) = none →
      ∀ dm : Option String,
        lookupA (recordDynamicProgress p st m (some (modeName l t)) dm
            now).singleGameStart (buildManagerKey (modeName l t) m) = some now)
    ∧
    ((p.cfg l).enabled = true → p.mgr l t = some m →
      totalGames (some m) ≤ 1 → strIsEmpty d = false →
      lookupA st.displayModeToManagers d =
        some [buildManagerKey (modeName l t) m] →
      buildManagerKey (modeName l t) m ∉ st.managersCompleted →
      lookupA st.singleGameStart (buildManagerKey (modeName l t) m) = some s →
      ((now < s + getGameDuration p l t.str (some m) →
        buildManagerKey (modeName l t) m ∉
            (evaluateDynamicCycleCompletion p st (some d) now).managersCompleted
          ∧ (evaluateDynamicCycleCompletion p st (some d) now).cycleComplete =
              false
          ∧ lookupA (evaluateDynamicCycleCompletion p st (some d)
              now).singleGameStart (buildManagerKey (modeName l t) m) = some s)
       ∧
       (s + getGameDuration p l t.str (some m) ≤ now →
        buildManagerKey (modeName l t) m ∈
            (evaluateDynamicCycleCompletion p st (some d) now).managersCompleted
          ∧ (evaluateDynamicCycleCompletion p st (some d) now).cycleComplete =
              true
          ∧ lookupA (evaluateDynamicCycleCompletion p st (some d)
              now).singleGameStart (buildManagerKey (modeName l t) m) = none))) := by
  constructor
  · intro h1 hnone dm
    have hkeylook :
        lookupA (rdpPre st (buildManagerKey (modeName l t) m) (modeName l t)
            (some (modeName l t)) dm now).singleGameStart
          (buildManagerKey (modeName l t) m) = none := by
      rcases rdpPre_singleGameStart st (buildManagerKey (modeName l t) m)
          (modeName l t) (some (modeName l t)) dm now with h | h <;> rw [h]
      · exact hnone
      · exact lookupA_eraseA_self _ _
    unfold recordDynamicProgress
    simp only [hdyn, hmodes]
    simp [trackSingleGameProgress, h1, hkeylook]
  · intro henabled hmgr htot hd hused hkeyn hstart
    constructor
    · intro hlt
      have hb : ¬ (now - s ≥ getGameDuration p l t.str (some m)) := by linarith
      rw [eval_display_single p st d (buildManagerKey (modeName l t) m) now hdyn
        hmodes hd hused]
      rw [evalKeyStep_single_waiting p st m l t now s henabled hmgr htot hkeyn
        hstart hb]
      simp [hkeyn, hstart]
    · intro hge
      have hb : now - s ≥ getGameDuration p l t.str (some m) := by linarith
      rw [eval_display_single p st d (buildManagerKey (modeName l t) m) now hdyn
        hmodes hd hused]
      rw [evalKeyStep_single_done p st m l t now s henabled hmgr htot hkeyn
        hstart hb]
      simp [trulyCompleted, mem_insertS]



def gW1 : Game := { id := some "701", away_abbr := "MEL", home_abbr := "PEN" }

def mW1 : Manager :=
  { className := "NRLRecentManager", games_list := some [gW1],
    game_display_duration := some 15, displayResult := some true }

def pW1 : Plugin :=
  { cfg := fun l =>
      match l with
      | .nrl => { enabled := true, dyn_enabled := some true }
      | _ => {},
    mgr := fun l t =>
      match l, t with
      | .nrl, .recent => some mW1
      | _, _ => none,
    modes := ["nrl_recent"] }

def stW1a : SchedState :=
  { currentDisplayLeague := some .nrl, currentDisplayModeType := some .recent }

def stW1b : SchedState :=
  { currentDisplayLeague := some .nrl, currentDisplayModeType := some .recent,
    singleGameStart := [(⟨"nrl_recent", "NRLRecentManager"⟩, 100)],
    displayModeToManagers :=
      [("nrl_recent", [⟨"nrl_recent", "NRLRecentManager"⟩])] }

/-- Witness for C1: a one-game NRL recent manager, start recorded at 100,
still incomplete at 110, complete exactly at the 115-second boundary. -/
theorem C1_single_game_dwell_witness :
    lookupA
        (recordDynamicProgress pW1 stW1a mW1 (some (modeName .nrl .recent))
          (some "nrl_recent") 100).singleGameStart
        (buildManagerKey (modeName .nrl .recent) mW1) = some 100
    ∧ (buildManagerKey (modeName .nrl .recent) mW1 ∉
          (evaluateDynamicCycleCompletion pW1 stW1b (some "nrl_recent")
            110).managersCompleted
        ∧ (evaluateDynamicCycleCompletion pW1 stW1b (some "nrl_recent")
            110).cycleComplete = false
        ∧ lookupA (evaluateDynamicCycleCompletion pW1 stW1b (some "nrl_recent")
            110).singleGameStart (buildManagerKey (modeName .nrl .recent) mW1) =
          some 100)
    ∧ (buildManagerKey (modeName .nrl .recent) mW1 ∈
          (evaluateDynamicCycleCompletion pW1 stW1b (some "nrl_recent")
            115).managersCompleted
        ∧ (evaluateDynamicCycleCompletion pW1 stW1b (some "nrl_recent")
            115).cycleComplete = true
        ∧ lookupA (evaluateDynamicCycleCompletion pW1 stW1b (some "nrl_recent")
            115).singleGameStart (buildManagerKey (modeName .nrl .recent) mW1) =
          none) :=
  ⟨(C1_single_game_dwell pW1 stW1a mW1 .nrl .recent "nrl_recent" 100 0
      (by decide) rfl).1 (by decide) (by decide) (some "nrl_recent"),
    (C1_single_game_dwell pW1 stW1b mW1 .nrl .recent "nrl_recent" 110 100
      (by decide) rfl).2 rfl rfl (by decide) (by decide) (by decide) (by decide)
      (by decide) |>.1 (by norm_num [getGameDuration, mW1]),
    (C1_single_game_dwell pW1 stW1b mW1 .nrl .recent "nrl_recent" 115 100
      (by decide) rfl).2 rfl rfl (by decide) (by decide) (by decide) (by decide)
      (by decide) |>.2 (by norm_num [getGameDuration, mW1])⟩



/-- Source `_record_dynamic_progress` with an explicit `actual_mode`, unfolded to
its phases. -/
theorem recordDynamicProgress_eq (p : Plugin) (st : SchedState) (m : Manager)
    (cm : String) (dm : Option String) (now : ℤ)
    (hdyn : dynamicFeatureEnabled p st = true)
    (hmodes : p.modes.isEmpty = false) :
    recordDynamicProgress p st m (some cm) dm now =
      (if totalGames (some m) ≤ 1 then
        trackSingleGameProgress p
          (rdpPre st (buildManagerKey cm m) cm (some cm) dm now)
          (buildManagerKey cm m) m (leaguePrefixMatch cm)
          (match leaguePrefixMatch cm with
            | some _ => some (afterFirstUnderscore cm)
            | none => none) now
      else
        recordMultiGame p (rdpPre st (buildManagerKey cm m) cm (some cm) dm now)
          (buildManagerKey cm m) m (leaguePrefixMatch cm)
          (match leaguePrefixMatch cm with
            | some _ => some (afterFirstUnderscore cm)
            | none => none) now) := by
  unfold recordDynamicProgress
  simp [hdyn, hmodes]

/-- After the multi-game branch, both ledgers for the key hold only ids from
the manager's current game-id list. -/
theorem recordMultiGame_pruned (p : Plugin) (st : SchedState) (key : MKey)
    (m : Manager) (lg : Option League) (mt : Option String) (now : ℤ)
    (g : Game) (hg : m.current_game = some g)
    (hvalid : (getAllGameIdsForManager (some m)).isEmpty = false) :
    (∀ x ∈ (lookupA (recordMultiGame p st key m lg mt now).managerProgress
        key).getD [], x ∈ getAllGameIdsForManager (some m))
    ∧ (∀ kv ∈ (lookupA (recordMultiGame p st key m lg mt now).gameIdStart
        key).getD [], kv.1 ∈ getAllGameIdsForManager (some m)) := by
  unfold recordMultiGame
  rw [hg]
  dsimp only
  simp only [hvalid]
  repeat' split
  all_goals
    refine ⟨fun x hx => ?_, fun kv hkv => ?_⟩
  all_goals
    simp_all [mem_interS, List.mem_filter, mem_insertS]



/-- Claim C3. Stale-game pruning: after a multi-game progress recording, the
dwell-time ledger of the key (timestamp map and credited-id set) holds
entries only for ids in the manager's current game-id list; ids of games
that have disappeared (e.g. `A` after `{A,B} → {B,C}`) are pruned. -/
theorem C3_stale_game_pruning (p : Plugin) (st : SchedState) (m : Manager)
    (cm : String) (dm : Option String) (now : ℤ) (g : Game)
    (hdyn : dynamicFeatureEnabled p st = true)
    (hmodes : p.modes.isEmpty = false)
    (htot : 1 < totalGames (some m))
    (hg : m.current_game = some g)
    (hvalid : (getAllGameIdsForManager (some m)).isEmpty = false) :
    (∀ x ∈ (lookupA (recordDynamicProgress p st m (some cm) dm
        now).managerProgress (buildManagerKey cm m)).getD [],
      x ∈ getAllGameIdsForManager (some m))
    ∧ (∀ kv ∈ (lookupA (recordDynamicProgress p st m (some cm) dm
        now).gameIdStart (buildManagerKey cm m)).getD [],
      kv.1 ∈ getAllGameIdsForManager (some m)) := by
  rw [recordDynamicProgress_eq p st m cm dm now hdyn hmodes,
    if_neg (by omega : ¬ totalGames (some m) ≤ 1)]
  exact recordMultiGame_pruned p _ _ m _ _ now g hg hvalid

def gW3b : Game := { id := some "B", away_abbr := "CAN", home_abbr := "NQL" }

def gW3c : Game := { id := some "C", away_abbr := "SOU", home_abbr := "CRO" }

def mW3 : Manager :=
  { className := "NRLRecentManager", games_list := some [gW3b, gW3c],
    current_game := some gW3b, game_display_duration := some 15,
    displayResult := some true }

def pW3 : Plugin :=
  { cfg := fun l =>
      match l with
      | .nrl => { enabled := true, dyn_enabled := some true }
      | _ => {},
    mgr := fun l t =>
      match l, t with
      | .nrl, .recent => some mW3
      | _, _ => none,
    modes := ["nrl_recent"] }

def stW3 : SchedState :=
  { currentDisplayLeague := some .nrl, currentDisplayModeType := some .recent,
    managerProgress := [(⟨"nrl_recent", "NRLRecentManager"⟩, ["A"])],
    gameIdStart := [(⟨"nrl_recent", "NRLRecentManager"⟩, [("A", 0), ("B", 0)])] }

/-- Witness for C3: the ledger held `A` from the old game set `{A,B}`; after
the next recording with current set `{B,C}` the surviving credited id `B`
is (as the theorem requires) in the current id list — and evaluating the
hypotheses forces the full pruned recording at this input. -/
theorem C3_stale_game_pruning_witness :
    "B" ∈ getAllGameIdsForManager (some mW3) :=
  (C3_stale_game_pruning pW3 stW3 mW3 "nrl_recent" (some "nrl_recent") 200 gW3b
    (by decide) rfl (by decide) rfl (by decide)).1 "B" (by decide)



/-- The multi-game branch marks a not-yet-completed key complete exactly
when the current game-id set is contained in the post-recording credited
set. -/
theorem recordMultiGame_completed_iff (p : Plugin) (st : SchedState)
    (key : MKey) (m : Manager) (lg : Option League) (mt : Option String)
    (now : ℤ) (g : Game) (hg : m.current_game = some g)
    (hids : (getAllGameIdsForManager (some m)).isEmpty = false)
    (hkeyn : key ∉ st.managersCompleted) :
    (key ∈ (recordMultiGame p st key m lg mt now).managersCompleted
      ↔ subsetS (getAllGameIdsForManager (some m))
          ((lookupA (recordMultiGame p st key m lg mt now).managerProgress
            key).getD []) = true) := by
  unfold recordMultiGame
  rw [hg]
  dsimp only
  simp only [hids]
  repeat' split
  all_goals simp_all [mem_insertS]

/-- With `display_mode == actual_mode` (the granular display path) the
recording prelude never touches the completed set. -/
theorem rdpPre_completed_same_mode (st : SchedState) (key : MKey) (cm : String)
    (now : ℤ) :
    (rdpPre st key cm (some cm) (some cm) now).managersCompleted =
      st.managersCompleted := by
  unfold rdpPre
  repeat' first | rfl | split | simp_all

theorem trackSingleGameProgress_completed_mono (p : Plugin) (st : SchedState)
    (key key' : MKey) (m : Manager) (lg : Option League) (mt : Option String)
    (now : ℤ) (h : key' ∈ st.managersCompleted) :
    key' ∈ (trackSingleGameProgress p st key m lg mt now).managersCompleted := by
  unfold trackSingleGameProgress
  repeat' first | rfl | split | simp_all [mem_insertS]

theorem recordMultiGame_completed_mono (p : Plugin) (st : SchedState)
    (key key' : MKey) (m : Manager) (lg : Option League) (mt : Option String)
    (now : ℤ) (h : key' ∈ st.managersCompleted) :
    key' ∈ (recordMultiGame p st key m lg mt now).managersCompleted := by
  unfold recordMultiGame
  repeat' first | rfl | split | simp_all [mem_insertS]

/-- Claim C2 (amended). For a multi-game manager: (i) a key *not already in
the completed set* is marked complete by a progress recording exactly when
(iff) the manager's current game-id set is a subset of the key's credited
(completed-game-id) set; (ii) a key already complete stays complete on the
granular path (`display_mode == actual_mode`, where no new-cycle reset can
fire) — completion membership is monotone, even if new game ids appear. -/
theorem C2_subset_completion (p : Plugin) (st : SchedState) (m : Manager)
    (cm : String) (dm : Option String) (now : ℤ) (g : Game)
    (hdyn : dynamicFeatureEnabled p st = true)
    (hmodes : p.modes.isEmpty = false)
    (htot : 1 < totalGames (some m))
    (hg : m.current_game = some g)
    (hids : (getAllGameIdsForManager (some m)).isEmpty = false) :
    (buildManagerKey cm m ∉ st.managersCompleted →
      (buildManagerKey cm m ∈
          (recordDynamicProgress p st m (some cm) dm now).managersCompleted
        ↔ subsetS (getAllGameIdsForManager (some m))
            ((lookupA (recordDynamicProgress p st m (some cm) dm
              now).managerProgress (buildManagerKey cm m)).getD []) = true))
    ∧
    (buildManagerKey cm m ∈ st.managersCompleted →
      buildManagerKey cm m ∈
        (recordDynamicProgress p st m (some cm) (some cm)
          now).managersCompleted) := by
  constructor
  · intro hkeyn
    rw [recordDynamicProgress_eq p st m cm dm now hdyn hmodes,
      if_neg (by omega : ¬ totalGames (some m) ≤ 1)]
    refine recordMultiGame_completed_iff p _ _ m _ _ now g hg hids ?_
    rcases rdpPre_completed st (buildManagerKey cm m) cm (some cm) dm now with
        h | h <;> rw [h]
    · exact hkeyn
    · simp
  · intro hkey
    rw [recordDynamicProgress_eq p st m cm (some cm) now hdyn hmodes,
      if_neg (by omega : ¬ totalGames (some m) ≤ 1)]
    refine recordMultiGame_completed_mono p _ _ _ m _ _ now ?_
    rw [rdpPre_completed_same_mode]
    exact hkey



def gC2a : Game := { id := some "A", away_abbr := "AAA", home_abbr := "HHH" }

def gC2b : Game := { id := some "B", away_abbr := "BBB", home_abbr := "III" }

def gC2c : Game := { id := some "C", away_abbr := "CCC", home_abbr := "JJJ" }

def mC2 : Manager :=
  { className := "NRLRecentManager", games_list := some [gC2a, gC2b, gC2c],
    current_game := some gC2a, game_display_duration := some 15,
    displayResult := some true }

def pC2 : Plugin :=
  { cfg := fun l =>
      match l with
      | .nrl => { enabled := true, dyn_enabled := some true }
      | _ => {},
    mgr := fun l t =>
      match l, t with
      | .nrl, .recent => some mC2
      | _, _ => none,
    modes := ["nrl_recent"] }

def stC2 : SchedState :=
  { currentDisplayLeague := some .nrl, currentDisplayModeType := some .recent,
    managerProgress := [(⟨"nrl_recent", "NRLRecentManager"⟩, ["A", "B"])],
    managersCompleted := [⟨"nrl_recent", "NRLRecentManager"⟩],
    gameIdStart := [(⟨"nrl_recent", "NRLRecentManager"⟩, [("A", 0), ("B", 0)])] }

/-- Counterexample to C2 as stated: after the manager's game set grows from
`{A,B}` (both credited, key completed) to `{A,B,C}`, the evaluation leaves
the key in the completed set although `{A,B,C} ⊄ {A,B}` — the stated iff
fails. -/
theorem C2_subset_completion_counterexample :
    ¬ (buildManagerKey "nrl_recent" mC2 ∈
        (recordDynamicProgress pC2 stC2 mC2 (some "nrl_recent")
          (some "nrl_recent") 100).managersCompleted
      ↔ subsetS (getAllGameIdsForManager (some mC2))
          ((lookupA (recordDynamicProgress pC2 stC2 mC2 (some "nrl_recent")
            (some "nrl_recent") 100).managerProgress
            (buildManagerKey "nrl_recent" mC2)).getD []) = true) := by
  decide

def mW2 : Manager :=
  { className := "NRLRecentManager", games_list := some [gC2a, gC2b],
    current_game := some gC2a, game_display_duration := some 15,
    displayResult := some true }

def pW2 : Plugin :=
  { cfg := fun l =>
      match l with
      | .nrl => { enabled := true, dyn_enabled := some true }
      | _ => {},
    mgr := fun l t =>
      match l, t with
      | .nrl, .recent => some mW2
      | _, _ => none,
    modes := ["nrl_recent"] }

def stW2 : SchedState :=
  { currentDisplayLeague := some .nrl, currentDisplayModeType := some .recent,
    managerProgress := [(⟨"nrl_recent", "NRLRecentManager"⟩, ["A", "B"])],
    gameIdStart := [(⟨"nrl_recent", "NRLRecentManager"⟩, [("A", 0), ("B", 0)])] }

/-- Witness for the amended C2: with both current ids credited the key is
marked complete (clause i), and a key already complete stays complete on
the granular path (clause ii). -/
theorem C2_subset_completion_witness :
    buildManagerKey "nrl_recent" mW2 ∈
      (recordDynamicProgress pW2 stW2 mW2 (some "nrl_recent")
        (some "nrl_recent") 100).managersCompleted
    ∧ buildManagerKey "nrl_recent" mC2 ∈
      (recordDynamicProgress pC2 stC2 mC2 (some "nrl_recent")
        (some "nrl_recent") 100).managersCompleted :=
  ⟨((C2_subset_completion pW2 stW2 mW2 "nrl_recent" (some "nrl_recent") 100
      gC2a (by decide) rfl (by decide) rfl (by decide)).1 (by decide)).mpr
      (by decide),
    (C2_subset_completion pC2 stC2 mC2 "nrl_recent" (some "nrl_recent") 100
      gC2a (by decide) rfl (by decide) rfl (by decide)).2 (by decide)⟩



/-- Claim C4 (amended). New-cycle detection: on an externally driven recording
(`display_mode ≠ actual_mode`, both nonempty) where the requested mode
differs from the previously seen external mode and the key was last active
at a positive time, (i) a gap of **at least** 10 seconds (boundary
inclusive — the code tests `>= NEW_CYCLE_THRESHOLD`) starts a new cycle:
the prelude deletes the key's single-game start time and per-game-id start
times, removes it from the completed set, and empties its progress set;
(ii) a gap of **strictly less than** 10 seconds clears none of this state;
(iii) under the dynamic feature the full recording is exactly the dwell
tracking applied to this prelude's result. -/
theorem C4_new_cycle_threshold (st : SchedState) (key : MKey) (cm d a : String)
    (now : ℤ)
    (hd : strIsEmpty d = false) (ha : strIsEmpty a = false) (hda : d ≠ a)
    (hlast : st.lastDisplayMode ≠ some d)
    (hpos : st.lastDisplayModeTime > 0) :
    ((now - st.lastDisplayModeTime ≥ newCycleThreshold →
      lookupA (rdpPre st key cm (some a) (some d) now).singleGameStart key = none
        ∧ key ∉ (rdpPre st key cm (some a) (some d) now).managersCompleted
        ∧ lookupA (rdpPre st key cm (some a) (some d) now).gameIdStart key = none
        ∧ (lookupA (rdpPre st key cm (some a) (some d) now).managerProgress key
              = none
            ∨ lookupA (rdpPre st key cm (some a) (some d) now).managerProgress
                key = some []))
      ∧
      (now - st.lastDisplayModeTime < newCycleThreshold →
        (rdpPre st key cm (some a) (some d) now).singleGameStart =
            st.singleGameStart
          ∧ (rdpPre st key cm (some a) (some d) now).managersCompleted =
              st.managersCompleted
          ∧ (rdpPre st key cm (some a) (some d) now).gameIdStart = st.gameIdStart
          ∧ (rdpPre st key cm (some a) (some d) now).managerProgress =
              st.managerProgress))
    ∧
    (∀ (p : Plugin) (m : Manager),
      dynamicFeatureEnabled p st = true → p.modes.isEmpty = false →
      key = buildManagerKey a m →
      recordDynamicProgress p st m (some a) (some d) now =
        (if totalGames (some m) ≤ 1 then
          trackSingleGameProgress p (rdpPre st key a (some a) (some d) now) key m
            (leaguePrefixMatch a)
            (match leaguePrefixMatch a with
              | some _ => some (afterFirstUnderscore a)
              | none => none) now
        else
          recordMultiGame p (rdpPre st key a (some a) (some d) now) key m
            (leaguePrefixMatch a)
            (match leaguePrefixMatch a with
              | some _ => some (afterFirstUnderscore a)
              | none => none) now)) := by
  refine ⟨⟨?_, ?_⟩, ?_⟩
  · intro hge
    unfold rdpPre newCycleReset
    simp only [hd, ha]
    repeat' first | rfl | split | simp_all
  · intro hlt
    have hnot : ¬ (newCycleThreshold ≤
        (if 0 < st.lastDisplayModeTime then now - st.lastDisplayModeTime
          else 999)) := by
      rw [if_pos hpos]
      omega
    unfold rdpPre
    simp only [hd, ha]
    repeat' first | rfl | split | simp_all
    all_goals omega
  · intro p m hdyn hmodes hkey
    subst hkey
    exact recordDynamicProgress_eq p st m a (some d) now hdyn hmodes



def kC4 : MKey := ⟨"nrl_recent", "NRLRecentManager"⟩

def stC4 : SchedState :=
  { currentDisplayLeague := some .nrl, currentDisplayModeType := some .recent,
    lastDisplayMode := some "nrl_upcoming", lastDisplayModeTime := 5,
    singleGameStart := [(kC4, 2)],
    managersCompleted := [kC4],
    gameIdStart := [(kC4, [("A", 2)])],
    managerProgress := [(kC4, ["A"])] }

/-- Witness for the amended C4: at a 10-second gap (boundary) the prelude
clears the key's dwell state; at a 9-second gap it leaves all of it
untouched. -/
theorem C4_new_cycle_threshold_witness :
    (lookupA (rdpPre stC4 kC4 "nrl_recent" (some "nrl_recent")
        (some "basketball_recent") 15).singleGameStart kC4 = none
      ∧ kC4 ∉ (rdpPre stC4 kC4 "nrl_recent" (some "nrl_recent")
          (some "basketball_recent") 15).managersCompleted
      ∧ lookupA (rdpPre stC4 kC4 "nrl_recent" (some "nrl_recent")
          (some "basketball_recent") 15).gameIdStart kC4 = none
      ∧ (lookupA (rdpPre stC4 kC4 "nrl_recent" (some "nrl_recent")
            (some "basketball_recent") 15).managerProgress kC4 = none
          ∨ lookupA (rdpPre stC4 kC4 "nrl_recent" (some "nrl_recent")
              (some "basketball_recent") 15).managerProgress kC4 = some []))
    ∧ ((rdpPre stC4 kC4 "nrl_recent" (some "nrl_recent")
          (some "basketball_recent") 14).singleGameStart = stC4.singleGameStart
      ∧ (rdpPre stC4 kC4 "nrl_recent" (some "nrl_recent")
          (some "basketball_recent") 14).managersCompleted =
            stC4.managersCompleted
      ∧ (rdpPre stC4 kC4 "nrl_recent" (some "nrl_recent")
          (some "basketball_recent") 14).gameIdStart = stC4.gameIdStart
      ∧ (rdpPre stC4 kC4 "nrl_recent" (some "nrl_recent")
          (some "basketball_recent") 14).managerProgress =
            stC4.managerProgress) :=
  ⟨(C4_new_cycle_threshold stC4 kC4 "nrl_recent" "basketball_recent"
      "nrl_recent" 15 rfl rfl (by decide) (by decide) (by decide)).1.1
      (by decide),
    (C4_new_cycle_threshold stC4 kC4 "nrl_recent" "basketball_recent"
      "nrl_recent" 14 rfl rfl (by decide) (by decide) (by decide)).1.2
      (by decide)⟩

def gC4 : Game := { id := some "A", away_abbr := "MEL", home_abbr := "PEN" }

def mC4 : Manager :=
  { className := "NRLRecentManager", games_list := some [gC4],
    game_display_duration := some 15, displayResult := some true }

def pC4 : Plugin :=
  { cfg := fun l =>
      match l with
      | .nrl => { enabled := true, dyn_enabled := some true }
      | _ => {},
    mgr := fun l t =>
      match l, t with
      | .nrl, .recent => some mC4
      | _, _ => none,
    modes := ["nrl_recent"] }

/-- Counterexample to C4 as stated: with a gap of *exactly* 10 seconds
(claimed to be "rapid intra-cycle switching" after which "none of this
state is cleared"), the recording does clear the key's state — it drops the
key from the completed set and restarts its single-game start time. -/
theorem C4_new_cycle_threshold_counterexample :
    15 - stC4.lastDisplayModeTime = 10
      ∧ buildManagerKey "nrl_recent" mC4 ∈ stC4.managersCompleted
      ∧ lookupA stC4.singleGameStart (buildManagerKey "nrl_recent" mC4) = some 2
      ∧ buildManagerKey "nrl_recent" mC4 ∉
          (recordDynamicProgress pC4 stC4 mC4 (some "nrl_recent")
            (some "basketball_recent") 15).managersCompleted
      ∧ lookupA (recordDynamicProgress pC4 stC4 mC4 (some "nrl_recent")
            (some "basketball_recent") 15).singleGameStart
          (buildManagerKey "nrl_recent" mC4) = some 15 := by
  decide



def gC5a : Game := { id := some "n1", away_abbr := "MEL", home_abbr := "PEN" }

def gC5b : Game := { id := some "n2", away_abbr := "SYD", home_abbr := "BRI" }

def gC5w : Game := { id := some "w1", away_abbr := "LVA", home_abbr := "NYL" }

def mC5n : Manager :=
  { className := "NRLRecentManager", games_list := some [gC5a, gC5b],
    game_display_duration := some 15 }

def mC5w : Manager :=
  { className := "WNBARecentManager", games_list := some [gC5w],
    game_display_duration := some 15 }

def pC5 : Plugin :=
  { cfg := fun l =>
      match l with
      | .nrl => { enabled := true }
      | .wnba => { enabled := true }
      | _ => {},
    mgr := fun l t =>
      match l, t with
      | .nrl, .recent => some mC5n
      | .wnba, .recent => some mC5w
      | _, _ => none,
    modes := ["nrl_recent", "wnba_recent"] }

def pC5o : Plugin :=
  { cfg := fun l =>
      match l with
      | .nrl => { enabled := true, md_recent := some 60 }
      | _ => {},
    mgr := fun l t =>
      match l, t with
      | .nrl, .recent => some mC5n
      | _, _ => none,
    modes := ["nrl_recent"] }

/-- Claim C5. `get_cycle_duration` on the two-league scenario (nrl priority 1
with 2 recent games at 15 s, wnba priority 2 with 1 at 15 s): the claimed
value 30.0 is returned only when the current display context is unset or
already on nrl.  Because the first league-parse block is guarded by
`not display_mode.startswith("nrl_")` (its inner `nrl_` branch is dead
code), an `nrl_*` mode falls back to `self._current_display_league`; when
that context is `wnba` — the normal situation while the rotation is asking
for the *next* mode's budget — the function prices `"nrl_recent"` with
wnba's single game and returns 15.0, contradicting the claim and the spec's
`total_current_games × per_game_duration`.  The 0-game default (45.0) and
the mode-level override behave as claimed. -/
theorem C5_cycle_duration_context_bug :
    getCycleDuration pC5 none (some "nrl_recent") = some 30
      ∧ getCycleDuration pC5 (some .nrl) (some "nrl_recent") = some 30
      ∧ getCycleDuration pC5 (some .wnba) (some "nrl_recent") = some 15
      ∧ getCycleDuration pC5 (some .wnba) (some "wnba_recent") = some 15
      ∧ getCycleDuration pC5 none (some "nrl_upcoming") = some 45
      ∧ getCycleDuration pC5o none (some "nrl_recent") = some 60 := by
  decide

def mC7 : Manager := { className := "NRLLiveManager", live_games := some [] }

def pC7 : Plugin :=
  { cfg := fun l =>
      match l with
      | .nrl => { enabled := true }
      | _ => {},
    mgr := fun l t =>
      match l, t with
      | .nrl, .live => some mC7
      | _, _ => none,
    modes := ["nrl_live"] }

/-- Counterexample to C7 as stated: an enabled league without
`live_priority` has its live manager offered even though its live-game list
is empty — "never included" fails (the fallback pass, lines 2683–2692,
offers empty-list managers as well). -/
theorem C7_live_resolution_counterexample :
    (mC7.live_games.getD []).isEmpty = true
      ∧ mC7 ∈ (resolveManagersForMode pC7 .live).2 := by
  decide

/-- Claim C7 (amended). Live-candidate resolution: `update()` is first invoked
on every enabled league's live manager; a live-priority league's manager
without (filtered) live games never enters the primary selection; but the
offered list is the primary selection *with a fallback* — when no manager
qualifies, every enabled league's live manager is offered (and leagues
without `live_priority` are offered regardless of live games). -/
theorem C7_live_resolution (p : Plugin) :
    ((resolveManagersForMode p .live).1 =
      (enabledLeaguesForMode p .live).filterMap fun l => p.mgr l .live)
    ∧
    (∀ (l : League) (m : Manager), l ∈ enabledLeaguesForMode p .live →
      p.mgr l .live = some m → (p.cfg l).live_priority = true →
      hasLiveGamesForManager (some m) = false →
      (∀ l' ∈ enabledLeaguesForMode p .live, l' ≠ l → p.mgr l' .live ≠ some m) →
      m ∉ primaryLiveManagers p)
    ∧
    ((resolveManagersForMode p .live).2 =
      if (primaryLiveManagers p).isEmpty then
        (enabledLeaguesForMode p .live).filterMap fun l => p.mgr l .live
      else primaryLiveManagers p) := by
  refine ⟨rfl, ?_, rfl⟩
  intro l m hl hmgr hpri hno hne hmem
  unfold primaryLiveManagers at hmem
  rw [List.mem_filterMap] at hmem
  obtain ⟨l', hl', hfn⟩ := hmem
  by_cases heq : l' = l
  · subst heq
    rw [hmgr] at hfn
    simp [hpri, hno] at hfn
  · have hneq := hne l' hl' heq
    cases hml : p.mgr l' ModeType.live with
    | none =>
      rw [hml] at hfn
      simp at hfn
    | some m2 =>
      rw [hml] at hfn
      dsimp only at hfn
      apply hneq
      rw [hml]
      split at hfn
      · split at hfn
        · exact hfn
        · simp at hfn
      · exact hfn



def pW7 : Plugin :=
  { cfg := fun l =>
      match l with
      | .nrl => { enabled := true, live_priority := true }
      | _ => {},
    mgr := fun l t =>
      match l, t with
      | .nrl, .live => some mC7
      | _, _ => none,
    modes := ["nrl_live"] }

/-- Witness for the amended C7: with `live_priority` set, the empty-list
live manager stays out of the primary selection. -/
theorem C7_live_resolution_witness : mC7 ∉ primaryLiveManagers pW7 :=
  (C7_live_resolution pW7).2.1 .nrl mC7 (by decide) rfl rfl (by decide)
    (by decide)



def mC9r : Manager :=
  { className := "NRLRecentManager", kind := .recent, games_list := some [],
    displayResult := some false }

def mC9l : Manager :=
  { className := "WNBALiveManager", kind := .core, current_game := none,
    displayResult := some false }

def pC9 : Plugin :=
  { cfg := fun l =>
      match l with
      | .nrl => { enabled := true }
      | .wnba => { enabled := true }
      | _ => {},
    mgr := fun l t =>
      match l, t with
      | .nrl, .recent => some mC9r
      | .wnba, .live => some mC9l
      | _, _ => none,
    modes := ["nrl_recent", "wnba_live"] }

/-- Claim C9. Refuted by the source: with `nrl_recent` in the available
modes but the NRL recent manager holding no games, `display("nrl_recent")`
(without `force_clear`) returns `False` as claimed, yet the display-clear
path IS invoked during the call — `SportsRecent.display` (the `display()`
every `*RecentManager` inherits) clears the screen and pushes the blank
frame whenever its `games_list` is empty (src/sports.py:2312–2316) before
returning `False`.  By contrast a live manager with no current game
(`SportsCore.display`, src/sports.py:210–221) deliberately skips the clear
on its no-content path — exactly the policy the spec states for the whole
of `display()`. -/
theorem C9_no_clear_on_false :
    ((display pC9 {} (some "nrl_recent") false 0).result = false
      ∧ (display pC9 {} (some "nrl_recent") false 0).cleared = true)
    ∧ ((display pC9 {} (some "wnba_live") false 0).result = false
      ∧ (display pC9 {} (some "wnba_live") false 0).cleared = false) := by
  exact ⟨⟨by decide, by decide⟩, by decide, by decide⟩


end RugbyScoreboard
